import Mathlib

/-!
# Backend selection of bank-vaults: `cmd/bank-vaults/util.go`

A shallow embedding of `kvStoreForConfig` and `vaultConfigForConfig`.

* The configuration (`*viper.Viper`) is a record of typed getters over the
  configuration keys the two functions read.
* The adapter constructors (`s3.New`, `awskms.New`, ...) live in other
  packages.  Their behaviour is a parameter (`World`): the outcome of a call
  may depend on the arguments and on every constructor call made before it.
* Every constructor call is recorded, with its outcome, in a trace, so that
  statements about which constructors are invoked, and in which order, can be
  made.
* A Go return `(kv.Service, error)` is `Outcome.ret svc err`; an index out of
  range is `Outcome.panicked`.
-/

namespace BankVaults

/-! ## Data model -/

/-- Configuration keys read by `util.go` (the `cfg...` constants; their string
values are declared in another file and play no role here). -/
inductive Key
  | cfgMode
  | cfgSecretShares
  | cfgSecretThreshold
  | cfgInitRootToken
  | cfgStoreRootToken
  | cfgPreFlightChecks
  | cfgGoogleCloudStorageBucket
  | cfgGoogleCloudStoragePrefix
  | cfgGoogleCloudKMSProject
  | cfgGoogleCloudKMSLocation
  | cfgGoogleCloudKMSKeyRing
  | cfgGoogleCloudKMSCryptoKey
  | cfgAWSS3Region
  | cfgAWSS3Bucket
  | cfgAWSS3Prefix
  | cfgAWSKMSRegion
  | cfgAWSKMSKeyID
  | cfgAzureKeyVaultName
  | cfgAlibabaAccessKeyID
  | cfgAlibabaAccessKeySecret
  | cfgAlibabaOSSBucket
  | cfgAlibabaOSSEndpoint
  | cfgAlibabaOSSPrefix
  | cfgAlibabaKMSRegion
  | cfgAlibabaKMSKeyID
  | cfgVaultAddress
  | cfgVaultUnsealKeysPath
  | cfgVaultRole
  | cfgVaultAuthPath
  | cfgVaultTokenPath
  | cfgVaultToken
  | cfgK8SNamespace
  | cfgK8SSecret
  | cfgHSMModulePath
  | cfgHSMSlotID
  | cfgHSMTokenLabel
  | cfgHSMPin
  | cfgHSMKeyLabel
  | cfgFilePath
  deriving DecidableEq, Repr

/-- The `*viper.Viper` configuration object, as the typed getters used. -/
structure Viper where
  GetString : Key → String
  GetStringSlice : Key → List String
  GetUint : Key → Nat
  GetInt : Key → Int
  GetBool : Key → Bool

/-- A Go `error` value that is not nil, identified with its message. -/
structure Error where
  message : String
  deriving DecidableEq, Repr

/-- Message of `errors.Errorf` / `errors.New`. -/
def errors.Errorf (msg : String) : Error := ⟨msg⟩

/-- Message of `errors.Wrap(err, msg)` for a non-nil `err`: `msg: err`. -/
def errors.Wrap (err : Error) (msg : String) : Error :=
  ⟨msg ++ ": " ++ err.message⟩

/-- A `kv.Service` interface value: nil, or some live object. -/
inductive Service
  | nil
  | obj (id : Nat)
  deriving DecidableEq, Repr

/-- The struct `hsm.Config`, with the fields `util.go` fills in. -/
structure hsm.Config where
  ModulePath : String
  SlotID : Nat
  TokenLabel : String
  Pin : String
  KeyLabel : String
  deriving DecidableEq, Repr

/-- The struct `vault.Config`, with the fields `util.go` fills in. -/
structure vault.Config where
  SecretShares : Int
  SecretThreshold : Int
  InitRootToken : String
  StoreRootToken : Bool
  PreFlightChecks : Bool
  deriving DecidableEq, Repr

/-- Package-level variables of package `main` that `util.go` reads. -/
structure Globals where
  k8sSecretLabels : List (String × String)
  appConfig : Viper

/-- One invocation of an adapter constructor, with its arguments. -/
inductive Call
  | gcsNew (bucket pfx : String)
  | gckmsNew (store : Service) (project location keyRing cryptoKey : String)
  | s3New (region bucket pfx : String)
  | awskmsNew (store : Service) (region keyID : String)
  | azurekvNew (name : String)
  | alibabaossNew (endpoint accessKeyID accessKeySecret bucket pfx : String)
  | alibabakmsNew (region accessKeyID accessKeySecret keyID : String) (store : Service)
  | kvvaultNew (addr unsealKeysPath role authPath tokenPath token : String)
  | k8sNew (ns secret : String) (labels : List (String × String))
  | hsmNew (config : hsm.Config) (store : Service)
  | devNew
  | fileNew (path : String)
  deriving DecidableEq, Repr

/-- A constructor call together with the `(kv.Service, error)` it returned. -/
structure Event where
  call : Call
  svc : Service
  err : Option Error
  deriving DecidableEq, Repr

/-- Behaviour of the code outside `util.go`: what each adapter constructor
returns, given the calls already made, and the aggregate `multi.New` builds. -/
structure World where
  respond : List Event → Call → Service × Option Error
  multiNew : List Service → Service

/-- Perform a constructor call after the calls in `tr`. -/
def World.invoke (w : World) (tr : List Event) (c : Call) : Event :=
  ⟨c, (w.respond tr c).1, (w.respond tr c).2⟩

/-- How a Go function returning `(kv.Service, error)` ends. -/
inductive Outcome
  | ret (svc : Service) (err : Option Error)
  | panicked
  deriving DecidableEq, Repr

/-- Result of one run: how it ended and the constructor calls it made. -/
structure Run where
  out : Outcome
  trace : List Event
  deriving DecidableEq, Repr

/-! ## Mode values -/

/-- Modelled from the spec: the value of the constant `cfgModeValueGoogleCloudKMSGCS`
(declared outside `util.go`), first of the modes listed in section 6. -/
def cfgModeValueGoogleCloudKMSGCS : String := "gcp-kms-gcs"
/-- Modelled from the spec: the value of the constant `cfgModeValueAWSKMS3`. -/
def cfgModeValueAWSKMS3 : String := "aws-kms-s3"
/-- Modelled from the spec: the value of the constant `cfgModeValueAzureKeyVault`. -/
def cfgModeValueAzureKeyVault : String := "azure-kv"
/-- Modelled from the spec: the value of the constant `cfgModeValueAlibabaKMSOSS`. -/
def cfgModeValueAlibabaKMSOSS : String := "alibaba-kms-oss"
/-- Modelled from the spec: the value of the constant `cfgModeValueVault`. -/
def cfgModeValueVault : String := "vault"
/-- Modelled from the spec: the value of the constant `cfgModeValueK8S`. -/
def cfgModeValueK8S : String := "k8s"
/-- Modelled from the spec: the value of the constant `cfgModeValueHSMK8S`. -/
def cfgModeValueHSMK8S : String := "hsm-k8s"
/-- Modelled from the spec: the value of the constant `cfgModeValueHSM`. -/
def cfgModeValueHSM : String := "hsm"
/-- Modelled from the spec: the value of the constant `cfgModeValueDev`. -/
def cfgModeValueDev : String := "dev"
/-- Modelled from the spec: the value of the constant `cfgModeValueFile`. -/
def cfgModeValueFile : String := "file"

/-- The ten recognised mode values, in the order of the `switch`. -/
def recognisedModes : List String :=
  [cfgModeValueGoogleCloudKMSGCS, cfgModeValueAWSKMS3, cfgModeValueAzureKeyVault,
   cfgModeValueAlibabaKMSOSS, cfgModeValueVault, cfgModeValueK8S, cfgModeValueHSMK8S,
   cfgModeValueHSM, cfgModeValueDev, cfgModeValueFile]

/-! ## `vaultConfigForConfig` (util.go, lines 40-50) -/

/-- The function ignores its argument and reads the global `appConfig`. -/
def vaultConfigForConfig (g : Globals) (_cfg : Viper) : vault.Config × Option Error :=
  ({ SecretShares := g.appConfig.GetInt .cfgSecretShares
     SecretThreshold := g.appConfig.GetInt .cfgSecretThreshold
     InitRootToken := g.appConfig.GetString .cfgInitRootToken
     StoreRootToken := g.appConfig.GetBool .cfgStoreRootToken
     PreFlightChecks := g.appConfig.GetBool .cfgPreFlightChecks }, none)

/-! ## `kvStoreForConfig` (util.go, lines 52-257) -/

/-- Result of a construction loop: the services built, an early
`return nil, err`, or an index out of range. -/
inductive LoopResult
  | done (services : List Service)
  | failed (err : Error)
  | panicked
  deriving DecidableEq, Repr

/-- Lines 87-98: `for i := range s3Regions`, over the remaining indices, with
`s3Services` built so far and the calls made so far. -/
def s3Loop (w : World) (s3Regions s3Buckets : List String) (s3Prefix : String) :
    List Nat → List Service → List Event → LoopResult × List Event
  | [], s3Services, tr => (.done s3Services, tr)
  | i :: rest, s3Services, tr =>
    match s3Regions[i]?, s3Buckets[i]? with
    | some region, some bucket =>
      let ev := w.invoke tr (.s3New region bucket s3Prefix)
      match ev.err with
      | some err => (.failed (errors.Wrap err "error creating AWS S3 kv store"), tr ++ [ev])
      | none => s3Loop w s3Regions s3Buckets s3Prefix rest (s3Services ++ [ev.svc]) (tr ++ [ev])
    | _, _ => (.panicked, tr)

/-- Lines 113-120: `for i := range kmsRegions`, over the remaining indices. -/
def kmsLoop (w : World) (s3Services : List Service) (kmsRegions kmsKeyIDs : List String) :
    List Nat → List Service → List Event → LoopResult × List Event
  | [], kmsServices, tr => (.done kmsServices, tr)
  | i :: rest, kmsServices, tr =>
    match s3Services[i]?, kmsRegions[i]?, kmsKeyIDs[i]? with
    | some s3Service, some region, some keyID =>
      let ev := w.invoke tr (.awskmsNew s3Service region keyID)
      match ev.err with
      | some err => (.failed (errors.Wrap err "error creating AWS KMS kv store"), tr ++ [ev])
      | none => kmsLoop w s3Services kmsRegions kmsKeyIDs rest (kmsServices ++ [ev.svc]) (tr ++ [ev])
    | _, _, _ => (.panicked, tr)

/-- Message of line 82, with the two lengths printed by `%d`. -/
def msgS3Mismatch (n m : Nat) : String :=
  "specify the same number of regions and buckets for AWS S3 kv store ["
    ++ toString n ++ " != " ++ toString m ++ "]"

/-- Message of line 104. -/
def msgKMSMismatch : String :=
  "specify the same number of regions and key IDs for AWS KMS kv store"

/-- Message of line 108. -/
def msgS3KMSMismatch : String :=
  "specify the same number of S3 buckets and KMS keys for AWS kv store"

/-- Message of line 255. -/
def msgUnsupported (mode : String) : String :=
  "unsupported backend mode: '" ++ mode ++ "'"

/-- Lines 54-73, case `cfgModeValueGoogleCloudKMSGCS`. -/
def kvStoreGoogleCloudKMSGCS (w : World) (cfg : Viper) : Run :=
  let e1 := w.invoke [] (.gcsNew (cfg.GetString .cfgGoogleCloudStorageBucket)
    (cfg.GetString .cfgGoogleCloudStoragePrefix))
  match e1.err with
  | some err =>
    ⟨.ret .nil (some (errors.Wrap err "error creating google cloud storage kv store")), [e1]⟩
  | none =>
    let e2 := w.invoke [e1] (.gckmsNew e1.svc
      (cfg.GetString .cfgGoogleCloudKMSProject)
      (cfg.GetString .cfgGoogleCloudKMSLocation)
      (cfg.GetString .cfgGoogleCloudKMSKeyRing)
      (cfg.GetString .cfgGoogleCloudKMSCryptoKey))
    match e2.err with
    | some err =>
      ⟨.ret .nil (some (errors.Wrap err "error creating google cloud kms kv store")), [e1, e2]⟩
    | none => ⟨.ret e2.svc none, [e1, e2]⟩

/-- Lines 75-122, case `cfgModeValueAWSKMS3`. -/
def kvStoreAWSKMS3 (w : World) (cfg : Viper) : Run :=
  let s3Regions := cfg.GetStringSlice .cfgAWSS3Region
  let s3Buckets := cfg.GetStringSlice .cfgAWSS3Bucket
  let s3Prefix := cfg.GetString .cfgAWSS3Prefix
  if s3Regions.length ≠ s3Buckets.length then
    ⟨.ret .nil (some (errors.Errorf (msgS3Mismatch s3Regions.length s3Buckets.length))), []⟩
  else
    match s3Loop w s3Regions s3Buckets s3Prefix (List.range s3Regions.length) [] [] with
    | (.panicked, tr) => ⟨.panicked, tr⟩
    | (.failed err, tr) => ⟨.ret .nil (some err), tr⟩
    | (.done s3Services, tr) =>
      let kmsRegions := cfg.GetStringSlice .cfgAWSKMSRegion
      let kmsKeyIDs := cfg.GetStringSlice .cfgAWSKMSKeyID
      if kmsRegions.length ≠ kmsKeyIDs.length then
        ⟨.ret .nil (some (errors.Errorf msgKMSMismatch)), tr⟩
      else if kmsRegions.length ≠ s3Regions.length then
        ⟨.ret .nil (some (errors.Errorf msgS3KMSMismatch)), tr⟩
      else
        match kmsLoop w s3Services kmsRegions kmsKeyIDs (List.range kmsRegions.length) [] tr with
        | (.panicked, tr2) => ⟨.panicked, tr2⟩
        | (.failed err, tr2) => ⟨.ret .nil (some err), tr2⟩
        | (.done kmsServices, tr2) => ⟨.ret (w.multiNew kmsServices) none, tr2⟩

/-- Lines 124-130, case `cfgModeValueAzureKeyVault`. -/
def kvStoreAzureKeyVault (w : World) (cfg : Viper) : Run :=
  let e1 := w.invoke [] (.azurekvNew (cfg.GetString .cfgAzureKeyVaultName))
  match e1.err with
  | some err => ⟨.ret .nil (some (errors.Wrap err "error creating Azure Key Vault kv store")), [e1]⟩
  | none => ⟨.ret e1.svc none, [e1]⟩

/-- Lines 132-167, case `cfgModeValueAlibabaKMSOSS`. -/
def kvStoreAlibabaKMSOSS (w : World) (cfg : Viper) : Run :=
  let accessKeyID := cfg.GetString .cfgAlibabaAccessKeyID
  let accessKeySecret := cfg.GetString .cfgAlibabaAccessKeySecret
  if accessKeyID = "" ∨ accessKeySecret = "" then
    ⟨.ret .nil (some (errors.Errorf "Alibaba accessKeyID or accessKeySecret can't be empty")), []⟩
  else
    let bucket := cfg.GetString .cfgAlibabaOSSBucket
    if bucket = "" then
      ⟨.ret .nil (some (errors.Errorf "Alibaba OSS bucket should be specified")), []⟩
    else
      let e1 := w.invoke [] (.alibabaossNew (cfg.GetString .cfgAlibabaOSSEndpoint)
        accessKeyID accessKeySecret bucket (cfg.GetString .cfgAlibabaOSSPrefix))
      match e1.err with
      | some err => ⟨.ret .nil (some (errors.Wrap err "error creating Alibaba OSS kv store")), [e1]⟩
      | none =>
        let e2 := w.invoke [e1] (.alibabakmsNew (cfg.GetString .cfgAlibabaKMSRegion)
          accessKeyID accessKeySecret (cfg.GetString .cfgAlibabaKMSKeyID) e1.svc)
        match e2.err with
        | some err =>
          ⟨.ret .nil (some (errors.Wrap err "error creating Alibaba KMS kv store")), [e1, e2]⟩
        | none => ⟨.ret e2.svc none, [e1, e2]⟩

/-- Lines 169-181, case `cfgModeValueVault`. -/
def kvStoreVault (w : World) (cfg : Viper) : Run :=
  let e1 := w.invoke [] (.kvvaultNew
    (cfg.GetString .cfgVaultAddress)
    (cfg.GetString .cfgVaultUnsealKeysPath)
    (cfg.GetString .cfgVaultRole)
    (cfg.GetString .cfgVaultAuthPath)
    (cfg.GetString .cfgVaultTokenPath)
    (cfg.GetString .cfgVaultToken))
  match e1.err with
  | some err => ⟨.ret .nil (some (errors.Wrap err "error creating Vault kv store")), [e1]⟩
  | none => ⟨.ret e1.svc none, [e1]⟩

/-- Lines 183-193, case `cfgModeValueK8S`. -/
def kvStoreK8S (g : Globals) (w : World) (cfg : Viper) : Run :=
  let e1 := w.invoke [] (.k8sNew (cfg.GetString .cfgK8SNamespace)
    (cfg.GetString .cfgK8SSecret) g.k8sSecretLabels)
  match e1.err with
  | some err => ⟨.ret .nil (some (errors.Wrap err "error creating K8S Secret kv store")), [e1]⟩
  | none => ⟨.ret e1.svc none, [e1]⟩

/-- Lines 196-219, case `cfgModeValueHSMK8S`. -/
def kvStoreHSMK8S (g : Globals) (w : World) (cfg : Viper) : Run :=
  let e1 := w.invoke [] (.k8sNew (cfg.GetString .cfgK8SNamespace)
    (cfg.GetString .cfgK8SSecret) g.k8sSecretLabels)
  match e1.err with
  | some err =>
    ⟨.ret .nil (some (errors.Wrap err "error creating K8S Secret with with kv store")), [e1]⟩
  | none =>
    let config : hsm.Config :=
      { ModulePath := cfg.GetString .cfgHSMModulePath
        SlotID := cfg.GetUint .cfgHSMSlotID
        TokenLabel := cfg.GetString .cfgHSMTokenLabel
        Pin := cfg.GetString .cfgHSMPin
        KeyLabel := cfg.GetString .cfgHSMKeyLabel }
    let e2 := w.invoke [e1] (.hsmNew config e1.svc)
    match e2.err with
    | some err => ⟨.ret .nil (some (errors.Wrap err "error creating HSM kv store")), [e1, e2]⟩
    | none => ⟨.ret e2.svc none, [e1, e2]⟩

/-- Lines 222-236, case `cfgModeValueHSM`. -/
def kvStoreHSM (w : World) (cfg : Viper) : Run :=
  let config : hsm.Config :=
    { ModulePath := cfg.GetString .cfgHSMModulePath
      SlotID := cfg.GetUint .cfgHSMSlotID
      TokenLabel := cfg.GetString .cfgHSMTokenLabel
      Pin := cfg.GetString .cfgHSMPin
      KeyLabel := cfg.GetString .cfgHSMKeyLabel }
  let e1 := w.invoke [] (.hsmNew config .nil)
  match e1.err with
  | some err => ⟨.ret .nil (some (errors.Wrap err "error creating HSM kv store")), [e1]⟩
  | none => ⟨.ret e1.svc none, [e1]⟩

/-- Lines 238-244, case `cfgModeValueDev`. -/
def kvStoreDev (w : World) : Run :=
  let e1 := w.invoke [] .devNew
  match e1.err with
  | some err => ⟨.ret .nil (some (errors.Wrap err "error creating Dev Secret kv store")), [e1]⟩
  | none => ⟨.ret e1.svc none, [e1]⟩

/-- Lines 246-252, case `cfgModeValueFile`. -/
def kvStoreFile (w : World) (cfg : Viper) : Run :=
  let e1 := w.invoke [] (.fileNew (cfg.GetString .cfgFilePath))
  match e1.err with
  | some err => ⟨.ret .nil (some (errors.Wrap err "error creating File kv store")), [e1]⟩
  | none => ⟨.ret e1.svc none, [e1]⟩

/-- The function `kvStoreForConfig`: the `switch` on `cfg.GetString(cfgMode)`,
cases tried in source order. -/
def kvStoreForConfig (g : Globals) (w : World) (cfg : Viper) : Run :=
  let mode := cfg.GetString .cfgMode
  if mode = cfgModeValueGoogleCloudKMSGCS then kvStoreGoogleCloudKMSGCS w cfg
  else if mode = cfgModeValueAWSKMS3 then kvStoreAWSKMS3 w cfg
  else if mode = cfgModeValueAzureKeyVault then kvStoreAzureKeyVault w cfg
  else if mode = cfgModeValueAlibabaKMSOSS then kvStoreAlibabaKMSOSS w cfg
  else if mode = cfgModeValueVault then kvStoreVault w cfg
  else if mode = cfgModeValueK8S then kvStoreK8S g w cfg
  else if mode = cfgModeValueHSMK8S then kvStoreHSMK8S g w cfg
  else if mode = cfgModeValueHSM then kvStoreHSM w cfg
  else if mode = cfgModeValueDev then kvStoreDev w
  else if mode = cfgModeValueFile then kvStoreFile w cfg
  else ⟨.ret .nil (some (errors.Errorf (msgUnsupported (cfg.GetString .cfgMode)))), []⟩

/-! ## The two construction loops as one loop -/

/-- Common shape of the two loops: at index `i` the call `callAt i` is made
(`none`: an operand of the call is out of range), an error is wrapped with
`msg` and returned, a success is appended. -/
def ctorLoop (w : World) (callAt : Nat → Option Call) (msg : String) :
    List Nat → List Service → List Event → LoopResult × List Event
  | [], acc, tr => (.done acc, tr)
  | i :: rest, acc, tr =>
    match callAt i with
    | none => (.panicked, tr)
    | some c =>
      match (w.invoke tr c).err with
      | some err => (.failed (errors.Wrap err msg), tr ++ [w.invoke tr c])
      | none => ctorLoop w callAt msg rest (acc ++ [(w.invoke tr c).svc]) (tr ++ [w.invoke tr c])

/-- The call of the S3 loop at index `i` (line 88). -/
def s3CallAt (s3Regions s3Buckets : List String) (s3Prefix : String) (i : Nat) : Option Call :=
  match s3Regions[i]?, s3Buckets[i]? with
  | some region, some bucket => some (.s3New region bucket s3Prefix)
  | _, _ => none

/-- The call of the KMS loop at index `i` (line 114). -/
def kmsCallAt (s3Services : List Service) (kmsRegions kmsKeyIDs : List String) (i : Nat) :
    Option Call :=
  match s3Services[i]?, kmsRegions[i]?, kmsKeyIDs[i]? with
  | some s3Service, some region, some keyID => some (.awskmsNew s3Service region keyID)
  | _, _, _ => none

/-- Every recorded event is what the world answered to its call after the
events before it. -/
def Valid (w : World) (tr : List Event) : Prop :=
  ∀ pre ev post, tr = pre ++ ev :: post → ev = w.invoke pre ev.call

/-- No recorded call returned an error. -/
def Clean (tr : List Event) : Prop := ∀ ev ∈ tr, ev.err = none

/-- What a construction loop over the indices `is` establishes. -/
def LoopPost (callAt : Nat → Option Call) (msg : String) (is : List Nat)
    (acc : List Service) (tr : List Event) (res : LoopResult × List Event) : Prop :=
  ∃ evs, res.2 = tr ++ evs ∧
    List.Forall₂ (fun i ev => callAt i = some ev.call) (is.take evs.length) evs ∧
    match res.1 with
    | .done acc2 => evs.length = is.length ∧ acc2 = acc ++ evs.map Event.svc ∧ Clean evs
    | .failed e => ∃ pre ev err, evs = pre ++ [ev] ∧ Clean pre ∧ ev.err = some err ∧
        e = errors.Wrap err msg
    | .panicked => Clean evs ∧ ∃ i ∈ is, callAt i = none

/-! ## The runs of the `aws-kms-s3` case -/

/-- The events `evs` are the calls of the S3 loop at its first indices, in order. -/
def S3Calls (cfg : Viper) (evs : List Event) : Prop :=
  List.Forall₂
    (fun i ev => s3CallAt (cfg.GetStringSlice .cfgAWSS3Region) (cfg.GetStringSlice .cfgAWSS3Bucket)
      (cfg.GetString .cfgAWSS3Prefix) i = some ev.call)
    ((List.range (cfg.GetStringSlice .cfgAWSS3Region).length).take evs.length) evs

/-- The events `evs` are the calls of the KMS loop at its first indices, in order. -/
def KMSCalls (cfg : Viper) (s3Services : List Service) (evs : List Event) : Prop :=
  List.Forall₂
    (fun i ev => kmsCallAt s3Services (cfg.GetStringSlice .cfgAWSKMSRegion)
      (cfg.GetStringSlice .cfgAWSKMSKeyID) i = some ev.call)
    ((List.range (cfg.GetStringSlice .cfgAWSKMSRegion).length).take evs.length) evs

/-- The six ways the `aws-kms-s3` case can end (return statements of lines
82, 94, 104, 108, 116 and 122). -/
inductive AWSRun (w : World) (cfg : Viper) : Run → Prop
  | s3Mismatch
      (h : (cfg.GetStringSlice .cfgAWSS3Region).length ≠ (cfg.GetStringSlice .cfgAWSS3Bucket).length) :
      AWSRun w cfg ⟨.ret .nil (some (errors.Errorf (msgS3Mismatch
        (cfg.GetStringSlice .cfgAWSS3Region).length (cfg.GetStringSlice .cfgAWSS3Bucket).length))), []⟩
  | s3Failed (pre : List Event) (ev : Event) (err : Error)
      (h : (cfg.GetStringSlice .cfgAWSS3Region).length = (cfg.GetStringSlice .cfgAWSS3Bucket).length)
      (hcalls : S3Calls cfg (pre ++ [ev])) (hpre : Clean pre) (herr : ev.err = some err) :
      AWSRun w cfg ⟨.ret .nil (some (errors.Wrap err "error creating AWS S3 kv store")), pre ++ [ev]⟩
  | kmsMismatch (s3evs : List Event)
      (h : (cfg.GetStringSlice .cfgAWSS3Region).length = (cfg.GetStringSlice .cfgAWSS3Bucket).length)
      (hcalls : S3Calls cfg s3evs) (hlen : s3evs.length = (cfg.GetStringSlice .cfgAWSS3Region).length)
      (hclean : Clean s3evs)
      (h2 : (cfg.GetStringSlice .cfgAWSKMSRegion).length ≠ (cfg.GetStringSlice .cfgAWSKMSKeyID).length) :
      AWSRun w cfg ⟨.ret .nil (some (errors.Errorf msgKMSMismatch)), s3evs⟩
  | s3kmsMismatch (s3evs : List Event)
      (h : (cfg.GetStringSlice .cfgAWSS3Region).length = (cfg.GetStringSlice .cfgAWSS3Bucket).length)
      (hcalls : S3Calls cfg s3evs) (hlen : s3evs.length = (cfg.GetStringSlice .cfgAWSS3Region).length)
      (hclean : Clean s3evs)
      (h2 : (cfg.GetStringSlice .cfgAWSKMSRegion).length = (cfg.GetStringSlice .cfgAWSKMSKeyID).length)
      (h3 : (cfg.GetStringSlice .cfgAWSKMSRegion).length ≠ (cfg.GetStringSlice .cfgAWSS3Region).length) :
      AWSRun w cfg ⟨.ret .nil (some (errors.Errorf msgS3KMSMismatch)), s3evs⟩
  | kmsFailed (s3evs pre : List Event) (ev : Event) (err : Error)
      (h : (cfg.GetStringSlice .cfgAWSS3Region).length = (cfg.GetStringSlice .cfgAWSS3Bucket).length)
      (hcalls : S3Calls cfg s3evs) (hlen : s3evs.length = (cfg.GetStringSlice .cfgAWSS3Region).length)
      (hclean : Clean s3evs)
      (h2 : (cfg.GetStringSlice .cfgAWSKMSRegion).length = (cfg.GetStringSlice .cfgAWSKMSKeyID).length)
      (h3 : (cfg.GetStringSlice .cfgAWSKMSRegion).length = (cfg.GetStringSlice .cfgAWSS3Region).length)
      (hkcalls : KMSCalls cfg (s3evs.map Event.svc) (pre ++ [ev]))
      (hpre : Clean pre) (herr : ev.err = some err) :
      AWSRun w cfg ⟨.ret .nil (some (errors.Wrap err "error creating AWS KMS kv store")),
        s3evs ++ (pre ++ [ev])⟩
  | built (s3evs kmsevs : List Event)
      (h : (cfg.GetStringSlice .cfgAWSS3Region).length = (cfg.GetStringSlice .cfgAWSS3Bucket).length)
      (hcalls : S3Calls cfg s3evs) (hlen : s3evs.length = (cfg.GetStringSlice .cfgAWSS3Region).length)
      (hclean : Clean s3evs)
      (h2 : (cfg.GetStringSlice .cfgAWSKMSRegion).length = (cfg.GetStringSlice .cfgAWSKMSKeyID).length)
      (h3 : (cfg.GetStringSlice .cfgAWSKMSRegion).length = (cfg.GetStringSlice .cfgAWSS3Region).length)
      (hkcalls : KMSCalls cfg (s3evs.map Event.svc) kmsevs)
      (hklen : kmsevs.length = (cfg.GetStringSlice .cfgAWSKMSRegion).length)
      (hkclean : Clean kmsevs) :
      AWSRun w cfg ⟨.ret (w.multiNew (kmsevs.map Event.svc)) none, s3evs ++ kmsevs⟩

/-! ## Predicates on whole runs -/

/-- Either no recorded call failed, or the only failing call is the last one
and the run returned a nil Service with an error. -/
def FailFast (r : Run) : Prop :=
  Clean r.trace ∨
    ∃ pre ev err e, r.trace = pre ++ [ev] ∧ Clean pre ∧ ev.err = some err ∧
      r.out = .ret .nil (some e)

/-- A call that is not a call to `hsm.New`. -/
def NotHSM (c : Call) : Prop := ∀ config store, c ≠ .hsmNew config store

/-! ## Concrete worlds and configurations -/

/-- A world in which every constructor succeeds; the object returned is
numbered by the count of earlier calls. -/
def worldOK : World :=
  ⟨fun tr _ => (.obj tr.length, none), fun members => .obj (100 + members.length)⟩

/-- A world in which every constructor fails. -/
def worldFail : World :=
  ⟨fun _ _ => (.nil, some ⟨"connection refused"⟩), fun members => .obj (100 + members.length)⟩

/-- A world in which the first constructor call succeeds and every later one fails. -/
def worldSecondFails : World :=
  ⟨fun tr _ => if tr.length = 0 then (.obj 0, none) else (.nil, some ⟨"access denied"⟩),
   fun members => .obj (100 + members.length)⟩

/-- A configuration with the given string and list values; numbers are 0,
booleans false. -/
def mkCfg (strs : Key → String) (slices : Key → List String) : Viper :=
  ⟨strs, slices, fun _ => 0, fun _ => 0, fun _ => false⟩

/-- Mode `aws-kms-s3` with the four parallel lists given and prefix `keys/`. -/
def cfgAWS (s3Regions s3Buckets kmsRegions kmsKeyIDs : List String) : Viper :=
  mkCfg
    (fun k => match k with
      | .cfgMode => "aws-kms-s3"
      | .cfgAWSS3Prefix => "keys/"
      | _ => "")
    (fun k => match k with
      | .cfgAWSS3Region => s3Regions
      | .cfgAWSS3Bucket => s3Buckets
      | .cfgAWSKMSRegion => kmsRegions
      | .cfgAWSKMSKeyID => kmsKeyIDs
      | _ => [])

/-- Two storage locations and three key-management locations. -/
def cfgAWS23 : Viper :=
  cfgAWS ["eu-west-1", "us-east-1"] ["bucket-eu", "bucket-us"]
    ["eu-west-1", "us-east-1", "ap-south-1"] ["key-eu", "key-us", "key-ap"]

/-- Two storage locations and two key-management locations. -/
def cfgAWS22 : Viper :=
  cfgAWS ["eu-west-1", "us-east-1"] ["bucket-eu", "bucket-us"]
    ["eu-west-1", "us-east-1"] ["key-eu", "key-us"]

/-- Mode `aws-kms-s3` declaring no location at all. -/
def cfgAWSEmpty : Viper := cfgAWS [] [] [] []

/-- A configuration that sets only the mode. -/
def cfgOnlyMode (mode : String) : Viper :=
  mkCfg (fun k => match k with
    | .cfgMode => mode
    | _ => "") (fun _ => [])

/-- Mode `alibaba-kms-oss` with the three required values present. -/
def cfgAlibaba : Viper :=
  mkCfg
    (fun k => match k with
      | .cfgMode => "alibaba-kms-oss"
      | .cfgAlibabaAccessKeyID => "LTAI-id"
      | .cfgAlibabaAccessKeySecret => "s3cr3t"
      | .cfgAlibabaOSSBucket => "unseal-keys"
      | .cfgAlibabaOSSEndpoint => "oss-eu-central-1.aliyuncs.com"
      | .cfgAlibabaKMSRegion => "eu-central-1"
      | .cfgAlibabaKMSKeyID => "key-1"
      | _ => "")
    (fun _ => [])

/-- Mode `alibaba-kms-oss` without an OSS bucket. -/
def cfgAlibabaNoBucket : Viper :=
  mkCfg
    (fun k => match k with
      | .cfgMode => "alibaba-kms-oss"
      | .cfgAlibabaAccessKeyID => "LTAI-id"
      | .cfgAlibabaAccessKeySecret => "s3cr3t"
      | _ => "")
    (fun _ => [])

/-- A Kubernetes and HSM configuration in the given mode. -/
def cfgHSM (mode : String) : Viper :=
  mkCfg
    (fun k => match k with
      | .cfgMode => mode
      | .cfgK8SNamespace => "default"
      | .cfgK8SSecret => "hsm"
      | .cfgHSMModulePath => "/usr/local/lib/opensc-pkcs11.so"
      | .cfgHSMTokenLabel => "bank-vaults"
      | .cfgHSMPin => "banzai"
      | .cfgHSMKeyLabel => "vault-key"
      | _ => "")
    (fun _ => [])

/-- Globals: no secret labels, `appConfig` asking for 5 shares, threshold 3. -/
def globalsA : Globals :=
  ⟨[], ⟨fun _ => "", fun _ => [], fun _ => 0,
    fun k => match k with
      | .cfgSecretShares => 5
      | .cfgSecretThreshold => 3
      | _ => 0,
    fun _ => false⟩⟩

/-- Globals: one secret label, `appConfig` asking for 1 share, threshold 1. -/
def globalsB : Globals :=
  ⟨[("app", "vault")], ⟨fun _ => "", fun _ => [], fun _ => 0, fun _ => 1, fun _ => true⟩⟩

/-- Globals with the labels of `globalsA` and the `appConfig` of `globalsB`. -/
def globalsC : Globals := ⟨globalsA.k8sSecretLabels, globalsB.appConfig⟩

/-! ## Lemmas on the loops -/

@[simp] theorem invoke_call (w : World) (tr : List Event) (c : Call) :
    (w.invoke tr c).call = c := rfl

theorem ctorLoop_cons_none (w : World) (callAt : Nat → Option Call) (msg : String)
    (i : Nat) (rest : List Nat) (acc : List Service) (tr : List Event)
    (h : callAt i = none) :
    ctorLoop w callAt msg (i :: rest) acc tr = (.panicked, tr) := by
  rw [ctorLoop, h]

theorem ctorLoop_cons_fail (w : World) (callAt : Nat → Option Call) (msg : String)
    (i : Nat) (rest : List Nat) (acc : List Service) (tr : List Event) (c : Call) (err : Error)
    (h : callAt i = some c) (he : (w.invoke tr c).err = some err) :
    ctorLoop w callAt msg (i :: rest) acc tr
      = (.failed (errors.Wrap err msg), tr ++ [w.invoke tr c]) := by
  rw [ctorLoop, h]
  simp only [he]

theorem ctorLoop_cons_ok (w : World) (callAt : Nat → Option Call) (msg : String)
    (i : Nat) (rest : List Nat) (acc : List Service) (tr : List Event) (c : Call)
    (h : callAt i = some c) (he : (w.invoke tr c).err = none) :
    ctorLoop w callAt msg (i :: rest) acc tr
      = ctorLoop w callAt msg rest (acc ++ [(w.invoke tr c).svc]) (tr ++ [w.invoke tr c]) := by
  rw [ctorLoop, h]
  simp only [he]

theorem s3Loop_eq_ctorLoop (w : World) (s3Regions s3Buckets : List String) (s3Prefix : String)
    (is : List Nat) (acc : List Service) (tr : List Event) :
    s3Loop w s3Regions s3Buckets s3Prefix is acc tr
      = ctorLoop w (s3CallAt s3Regions s3Buckets s3Prefix) "error creating AWS S3 kv store"
          is acc tr := by
  induction is generalizing acc tr with
  | nil => rfl
  | cons i rest ih =>
    rw [s3Loop, ctorLoop]
    cases h1 : s3Regions[i]? <;> cases h2 : s3Buckets[i]? <;> simp [s3CallAt, h1, h2]
    cases h3 : (w.invoke tr (.s3New _ _ s3Prefix)).err
    · simpa using ih _ _
    · simp

theorem kmsLoop_eq_ctorLoop (w : World) (s3Services : List Service)
    (kmsRegions kmsKeyIDs : List String)
    (is : List Nat) (acc : List Service) (tr : List Event) :
    kmsLoop w s3Services kmsRegions kmsKeyIDs is acc tr
      = ctorLoop w (kmsCallAt s3Services kmsRegions kmsKeyIDs) "error creating AWS KMS kv store"
          is acc tr := by
  induction is generalizing acc tr with
  | nil => rfl
  | cons i rest ih =>
    rw [kmsLoop, ctorLoop]
    cases h1 : s3Services[i]? <;> cases h2 : kmsRegions[i]? <;> cases h3 : kmsKeyIDs[i]? <;>
      simp [kmsCallAt, h1, h2, h3]
    cases h4 : (w.invoke tr (.awskmsNew _ _ _)).err
    · simpa using ih _ _
    · simp

theorem valid_nil (w : World) : Valid w [] := by
  intro pre ev post h
  cases pre <;> simp at h

theorem valid_snoc (w : World) (tr : List Event) (c : Call) (h : Valid w tr) :
    Valid w (tr ++ [w.invoke tr c]) := by
  intro pre ev post hsplit
  rcases List.eq_nil_or_concat post with hp | ⟨post2, x, hp⟩
  · subst hp
    have h2 : tr ++ [w.invoke tr c] = pre ++ [ev] := hsplit
    have h3 := List.append_inj' h2 rfl
    obtain ⟨h4, h5⟩ := h3
    simp at h5
    subst h4
    rw [← h5]
    rfl
  · subst hp
    have h2 : tr ++ [w.invoke tr c] = (pre ++ ev :: post2) ++ [x] := by
      rw [hsplit]; simp
    have h3 := List.append_inj' h2 rfl
    exact h pre ev post2 h3.1

theorem ctorLoop_valid (w : World) (callAt : Nat → Option Call) (msg : String)
    (is : List Nat) (acc : List Service) (tr : List Event) (h : Valid w tr) :
    Valid w (ctorLoop w callAt msg is acc tr).2 := by
  induction is generalizing acc tr with
  | nil => exact h
  | cons i rest ih =>
    cases h1 : callAt i with
    | none => rw [ctorLoop_cons_none _ _ _ _ _ _ _ h1]; exact h
    | some c =>
      cases h2 : (w.invoke tr c).err with
      | some err =>
        rw [ctorLoop_cons_fail _ _ _ _ _ _ _ c err h1 h2]
        exact valid_snoc w tr c h
      | none =>
        rw [ctorLoop_cons_ok _ _ _ _ _ _ _ c h1 h2]
        exact ih _ _ (valid_snoc w tr c h)

theorem clean_cons (ev : Event) (evs : List Event) (h : ev.err = none) (hc : Clean evs) :
    Clean (ev :: evs) := by
  intro x hx
  rcases List.mem_cons.1 hx with rfl | hx
  · exact h
  · exact hc x hx

theorem ctorLoop_post (w : World) (callAt : Nat → Option Call) (msg : String)
    (is : List Nat) (acc : List Service) (tr : List Event) :
    LoopPost callAt msg is acc tr (ctorLoop w callAt msg is acc tr) := by
  induction is generalizing acc tr with
  | nil =>
    refine ⟨[], by simp [ctorLoop], by simp, ?_⟩
    simp [ctorLoop, Clean]
  | cons i rest ih =>
    cases h1 : callAt i with
    | none =>
      rw [ctorLoop_cons_none _ _ _ _ _ _ _ h1]
      refine ⟨[], by simp, by simp, ?_⟩
      simp [Clean, h1]
    | some c =>
      cases h2 : (w.invoke tr c).err with
      | some err =>
        rw [ctorLoop_cons_fail _ _ _ _ _ _ _ c err h1 h2]
        refine ⟨[w.invoke tr c], by simp, by simp [h1], ?_⟩
        exact ⟨[], w.invoke tr c, err, by simp, by simp [Clean], h2, rfl⟩
      | none =>
        rw [ctorLoop_cons_ok _ _ _ _ _ _ _ c h1 h2]
        obtain ⟨evs, htr, hcalls, hres⟩ :=
          ih (acc ++ [(w.invoke tr c).svc]) (tr ++ [w.invoke tr c])
        refine ⟨w.invoke tr c :: evs, by simp [htr], ?_, ?_⟩
        · simpa [h1] using hcalls
        · revert hres
          cases (ctorLoop w callAt msg rest (acc ++ [(w.invoke tr c).svc])
            (tr ++ [w.invoke tr c])).1 with
          | done acc2 =>
            rintro ⟨hl, ha, hc⟩
            exact ⟨by simp [hl], by simp [ha], clean_cons _ _ h2 hc⟩
          | failed e =>
            rintro ⟨pre, ev, err, he, hc, herr, hw⟩
            exact ⟨w.invoke tr c :: pre, ev, err, by simp [he], clean_cons _ _ h2 hc, herr, hw⟩
          | panicked =>
            rintro ⟨hc, j, hj, hnone⟩
            exact ⟨clean_cons _ _ h2 hc, j, List.mem_cons_of_mem _ hj, hnone⟩

theorem s3CallAt_isSome (s3Regions s3Buckets : List String) (s3Prefix : String) (i : Nat)
    (h1 : i < s3Regions.length) (h2 : i < s3Buckets.length) :
    s3CallAt s3Regions s3Buckets s3Prefix i ≠ none := by
  simp [s3CallAt, List.getElem?_eq_getElem h1, List.getElem?_eq_getElem h2]

theorem kmsCallAt_isSome (s3Services : List Service) (kmsRegions kmsKeyIDs : List String)
    (i : Nat) (h1 : i < s3Services.length) (h2 : i < kmsRegions.length)
    (h3 : i < kmsKeyIDs.length) :
    kmsCallAt s3Services kmsRegions kmsKeyIDs i ≠ none := by
  simp [kmsCallAt, List.getElem?_eq_getElem h1, List.getElem?_eq_getElem h2,
    List.getElem?_eq_getElem h3]

theorem kvStoreAWSKMS3_run (w : World) (cfg : Viper) : AWSRun w cfg (kvStoreAWSKMS3 w cfg) := by
  unfold kvStoreAWSKMS3
  simp only []
  by_cases h : (cfg.GetStringSlice .cfgAWSS3Region).length = (cfg.GetStringSlice .cfgAWSS3Bucket).length
  · rw [if_neg (not_not.2 h), s3Loop_eq_ctorLoop]
    have hp := ctorLoop_post w (s3CallAt (cfg.GetStringSlice .cfgAWSS3Region)
      (cfg.GetStringSlice .cfgAWSS3Bucket) (cfg.GetString .cfgAWSS3Prefix))
      "error creating AWS S3 kv store" (List.range (cfg.GetStringSlice .cfgAWSS3Region).length) [] []
    revert hp
    generalize ctorLoop w _ _ _ [] [] = res
    obtain ⟨r, tr⟩ := res
    rintro ⟨s3evs, htr, hcalls, hres⟩
    simp only [List.nil_append] at htr
    subst tr
    cases r with
    | panicked =>
      obtain ⟨-, i, hi, hnone⟩ := hres
      have hi2 := List.mem_range.1 hi
      exact absurd hnone (s3CallAt_isSome _ _ _ i hi2 (h ▸ hi2))
    | failed e =>
      obtain ⟨pre, ev, err, he, hc, herr, hw⟩ := hres
      subst he hw
      exact AWSRun.s3Failed pre ev err h hcalls hc herr
    | done s3Services =>
      obtain ⟨hlen, hacc, hclean⟩ := hres
      simp only [List.nil_append] at hacc
      subst hacc
      simp only [List.length_range] at hlen
      have hcalls2 : S3Calls cfg s3evs := hcalls
      simp only []
      by_cases h2 : (cfg.GetStringSlice .cfgAWSKMSRegion).length
          = (cfg.GetStringSlice .cfgAWSKMSKeyID).length
      · rw [if_neg (not_not.2 h2)]
        by_cases h3 : (cfg.GetStringSlice .cfgAWSKMSRegion).length
            = (cfg.GetStringSlice .cfgAWSS3Region).length
        · rw [if_neg (not_not.2 h3), kmsLoop_eq_ctorLoop]
          have hp := ctorLoop_post w (kmsCallAt (s3evs.map Event.svc)
            (cfg.GetStringSlice .cfgAWSKMSRegion) (cfg.GetStringSlice .cfgAWSKMSKeyID))
            "error creating AWS KMS kv store"
            (List.range (cfg.GetStringSlice .cfgAWSKMSRegion).length) [] s3evs
          revert hp
          generalize ctorLoop w _ _ _ [] s3evs = res
          obtain ⟨r, tr⟩ := res
          rintro ⟨kmsevs, htr, hkcalls, hres⟩
          change tr = s3evs ++ kmsevs at htr
          subst tr
          cases r with
          | panicked =>
            obtain ⟨-, i, hi, hnone⟩ := hres
            have hi2 := List.mem_range.1 hi
            refine absurd hnone (kmsCallAt_isSome _ _ _ i ?_ hi2 (h2 ▸ hi2))
            simp only [List.length_map, hlen, ← h3]
            exact hi2
          | failed e =>
            obtain ⟨pre, ev, err, he, hc, herr, hw⟩ := hres
            subst he hw
            exact AWSRun.kmsFailed s3evs pre ev err h hcalls2 hlen hclean h2 h3 hkcalls hc herr
          | done kmsServices =>
            obtain ⟨hklen, hacc, hkclean⟩ := hres
            simp only [List.nil_append] at hacc
            subst hacc
            simp only [List.length_range] at hklen
            exact AWSRun.built s3evs kmsevs h hcalls2 hlen hclean h2 h3 hkcalls hklen hkclean
        · rw [if_pos h3]
          exact AWSRun.s3kmsMismatch s3evs h hcalls2 hlen hclean h2 h3
      · rw [if_pos h2]
        exact AWSRun.kmsMismatch s3evs h hcalls2 hlen hclean h2
  · rw [if_pos h]
    exact AWSRun.s3Mismatch h

/-! ## Dispatch on the mode -/

theorem kvStoreForConfig_gcp (g : Globals) (w : World) (cfg : Viper)
    (h : cfg.GetString .cfgMode = cfgModeValueGoogleCloudKMSGCS) :
    kvStoreForConfig g w cfg = kvStoreGoogleCloudKMSGCS w cfg := by
  simp [kvStoreForConfig, h]

theorem kvStoreForConfig_aws (g : Globals) (w : World) (cfg : Viper)
    (h : cfg.GetString .cfgMode = cfgModeValueAWSKMS3) :
    kvStoreForConfig g w cfg = kvStoreAWSKMS3 w cfg := by
  simp +decide [kvStoreForConfig, h]

theorem kvStoreForConfig_azure (g : Globals) (w : World) (cfg : Viper)
    (h : cfg.GetString .cfgMode = cfgModeValueAzureKeyVault) :
    kvStoreForConfig g w cfg = kvStoreAzureKeyVault w cfg := by
  simp +decide [kvStoreForConfig, h]

theorem kvStoreForConfig_alibaba (g : Globals) (w : World) (cfg : Viper)
    (h : cfg.GetString .cfgMode = cfgModeValueAlibabaKMSOSS) :
    kvStoreForConfig g w cfg = kvStoreAlibabaKMSOSS w cfg := by
  simp +decide [kvStoreForConfig, h]

theorem kvStoreForConfig_vault (g : Globals) (w : World) (cfg : Viper)
    (h : cfg.GetString .cfgMode = cfgModeValueVault) :
    kvStoreForConfig g w cfg = kvStoreVault w cfg := by
  simp +decide [kvStoreForConfig, h]

theorem kvStoreForConfig_k8s (g : Globals) (w : World) (cfg : Viper)
    (h : cfg.GetString .cfgMode = cfgModeValueK8S) :
    kvStoreForConfig g w cfg = kvStoreK8S g w cfg := by
  simp +decide [kvStoreForConfig, h]

theorem kvStoreForConfig_hsmk8s (g : Globals) (w : World) (cfg : Viper)
    (h : cfg.GetString .cfgMode = cfgModeValueHSMK8S) :
    kvStoreForConfig g w cfg = kvStoreHSMK8S g w cfg := by
  simp +decide [kvStoreForConfig, h]

theorem kvStoreForConfig_hsm (g : Globals) (w : World) (cfg : Viper)
    (h : cfg.GetString .cfgMode = cfgModeValueHSM) :
    kvStoreForConfig g w cfg = kvStoreHSM w cfg := by
  simp +decide [kvStoreForConfig, h]

theorem kvStoreForConfig_dev (g : Globals) (w : World) (cfg : Viper)
    (h : cfg.GetString .cfgMode = cfgModeValueDev) :
    kvStoreForConfig g w cfg = kvStoreDev w := by
  simp +decide [kvStoreForConfig, h]

theorem kvStoreForConfig_file (g : Globals) (w : World) (cfg : Viper)
    (h : cfg.GetString .cfgMode = cfgModeValueFile) :
    kvStoreForConfig g w cfg = kvStoreFile w cfg := by
  simp +decide [kvStoreForConfig, h]

theorem kvStoreForConfig_default (g : Globals) (w : World) (cfg : Viper)
    (h : cfg.GetString .cfgMode ∉ recognisedModes) :
    kvStoreForConfig g w cfg
      = ⟨.ret .nil (some (errors.Errorf (msgUnsupported (cfg.GetString .cfgMode)))), []⟩ := by
  simp only [recognisedModes, List.mem_cons, List.mem_singleton, List.not_mem_nil, or_false,
    not_or] at h
  obtain ⟨h1, h2, h3, h4, h5, h6, h7, h8, h9, h10⟩ := h
  simp [kvStoreForConfig, h1, h2, h3, h4, h5, h6, h7, h8, h9, h10]

/-! ## A failing constructor ends the run -/

theorem clean_nil : Clean [] := by
  intro ev h
  cases h

theorem clean_append (xs ys : List Event) (hx : Clean xs) (hy : Clean ys) : Clean (xs ++ ys) := by
  intro ev h
  rcases List.mem_append.1 h with h | h
  · exact hx ev h
  · exact hy ev h

theorem clean_one (ev : Event) (h : ev.err = none) : Clean [ev] :=
  clean_cons ev [] h clean_nil

theorem failFast_one (c : Call) (w : World) (msg : String) :
    FailFast (match (w.invoke [] c).err with
      | some err => ⟨.ret .nil (some (errors.Wrap err msg)), [w.invoke [] c]⟩
      | none => ⟨.ret (w.invoke [] c).svc none, [w.invoke [] c]⟩) := by
  cases h : (w.invoke [] c).err with
  | none => exact Or.inl (clean_one _ h)
  | some err => exact Or.inr ⟨[], _, err, _, rfl, clean_nil, h, rfl⟩

theorem failFast_two (c1 : Call) (c2 : Service → Call) (w : World) (msg1 msg2 : String) :
    FailFast (match (w.invoke [] c1).err with
      | some err => ⟨.ret .nil (some (errors.Wrap err msg1)), [w.invoke [] c1]⟩
      | none =>
        match (w.invoke [w.invoke [] c1] (c2 (w.invoke [] c1).svc)).err with
        | some err => ⟨.ret .nil (some (errors.Wrap err msg2)),
            [w.invoke [] c1, w.invoke [w.invoke [] c1] (c2 (w.invoke [] c1).svc)]⟩
        | none => ⟨.ret (w.invoke [w.invoke [] c1] (c2 (w.invoke [] c1).svc)).svc none,
            [w.invoke [] c1, w.invoke [w.invoke [] c1] (c2 (w.invoke [] c1).svc)]⟩) := by
  cases h : (w.invoke [] c1).err with
  | some err => exact Or.inr ⟨[], _, err, _, rfl, clean_nil, h, rfl⟩
  | none =>
    cases h2 : (w.invoke [w.invoke [] c1] (c2 (w.invoke [] c1).svc)).err with
    | none => exact Or.inl (clean_cons _ _ h (clean_one _ h2))
    | some err => exact Or.inr ⟨[w.invoke [] c1], _, err, _, rfl, clean_one _ h, h2, rfl⟩

theorem failFast_aws (w : World) (cfg : Viper) : FailFast (kvStoreAWSKMS3 w cfg) := by
  have h := kvStoreAWSKMS3_run w cfg
  revert h
  generalize kvStoreAWSKMS3 w cfg = r
  intro h
  cases h with
  | s3Mismatch h => exact Or.inl clean_nil
  | s3Failed pre ev err h hcalls hpre herr => exact Or.inr ⟨pre, ev, err, _, rfl, hpre, herr, rfl⟩
  | kmsMismatch s3evs h hcalls hlen hclean h2 => exact Or.inl hclean
  | s3kmsMismatch s3evs h hcalls hlen hclean h2 h3 => exact Or.inl hclean
  | kmsFailed s3evs pre ev err h hcalls hlen hclean h2 h3 hkcalls hpre herr =>
    exact Or.inr ⟨s3evs ++ pre, ev, err, _, by simp, clean_append _ _ hclean hpre, herr, rfl⟩
  | built s3evs kmsevs h hcalls hlen hclean h2 h3 hkcalls hklen hkclean =>
    exact Or.inl (clean_append _ _ hclean hkclean)

theorem failFast_alibaba (w : World) (cfg : Viper) : FailFast (kvStoreAlibabaKMSOSS w cfg) := by
  unfold kvStoreAlibabaKMSOSS
  simp only []
  split
  · exact Or.inl clean_nil
  · split
    · exact Or.inl clean_nil
    · exact failFast_two _ (fun s => .alibabakmsNew _ _ _ _ s) w _ _

theorem failFast_kvStoreForConfig (g : Globals) (w : World) (cfg : Viper) :
    FailFast (kvStoreForConfig g w cfg) := by
  unfold kvStoreForConfig
  simp only []
  split
  · exact failFast_two _ (fun s => .gckmsNew s _ _ _ _) w _ _
  split
  · exact failFast_aws w cfg
  split
  · exact failFast_one _ w _
  split
  · exact failFast_alibaba w cfg
  split
  · exact failFast_one _ w _
  split
  · exact failFast_one _ w _
  split
  · exact failFast_two _ (fun s => .hsmNew _ s) w _ _
  split
  · exact failFast_one _ w _
  split
  · exact failFast_one _ w _
  split
  · exact failFast_one _ w _
  · exact Or.inl clean_nil

/-- Splitting a list whose only element with an error is the last one. -/
theorem failing_event_is_last (pre pre2 post : List Event) (ev ev2 : Event)
    (h : pre ++ [ev] = pre2 ++ ev2 :: post) (hpre : Clean pre) (herr : ev2.err ≠ none) :
    post = [] := by
  rcases List.eq_nil_or_concat post with hp | ⟨post2, x, hp⟩
  · exact hp
  · subst hp
    have h2 : pre ++ [ev] = (pre2 ++ ev2 :: post2) ++ [x] := by
      rw [h]; simp
    have h3 := (List.append_inj' h2 rfl).1
    exact absurd (hpre ev2 (by rw [h3]; simp)) herr

/-! ## Length mismatch, unknown mode, failing constructor, empty lists -/

/-- C1: in mode `aws-kms-s3`, when the four parallel lists (S3 regions, S3
buckets, KMS regions, KMS key IDs) do not all have the same length,
`kvStoreForConfig` returns a nil Service together with an error, whatever the
adapter constructors return. -/
theorem kvStoreForConfig_aws_mismatch_fails (g : Globals) (w : World) (cfg : Viper)
    (hmode : cfg.GetString .cfgMode = cfgModeValueAWSKMS3)
    (hne : ¬ ((cfg.GetStringSlice .cfgAWSS3Region).length = (cfg.GetStringSlice .cfgAWSS3Bucket).length
      ∧ (cfg.GetStringSlice .cfgAWSS3Bucket).length = (cfg.GetStringSlice .cfgAWSKMSRegion).length
      ∧ (cfg.GetStringSlice .cfgAWSKMSRegion).length = (cfg.GetStringSlice .cfgAWSKMSKeyID).length)) :
    ∃ err, (kvStoreForConfig g w cfg).out = .ret .nil (some err) := by
  rw [kvStoreForConfig_aws g w cfg hmode]
  have h := kvStoreAWSKMS3_run w cfg
  revert h
  generalize kvStoreAWSKMS3 w cfg = r
  intro h
  cases h with
  | s3Mismatch h => exact ⟨_, rfl⟩
  | s3Failed pre ev err h hcalls hpre herr => exact ⟨_, rfl⟩
  | kmsMismatch s3evs h hcalls hlen hclean h2 => exact ⟨_, rfl⟩
  | s3kmsMismatch s3evs h hcalls hlen hclean h2 h3 => exact ⟨_, rfl⟩
  | kmsFailed s3evs pre ev err h hcalls hlen hclean h2 h3 hkcalls hpre herr =>
    exact absurd ⟨h, by omega, h2⟩ hne
  | built s3evs kmsevs h hcalls hlen hclean h2 h3 hkcalls hklen hkclean =>
    exact absurd ⟨h, by omega, h2⟩ hne

/-- Witness of C1: two storage locations and three key-management locations,
with constructors that all succeed. -/
theorem kvStoreForConfig_aws_mismatch_fails_witness :
    cfgAWS23.GetString .cfgMode = cfgModeValueAWSKMS3
      ∧ (cfgAWS23.GetStringSlice .cfgAWSS3Region).length = 2
      ∧ (cfgAWS23.GetStringSlice .cfgAWSS3Bucket).length = 2
      ∧ (cfgAWS23.GetStringSlice .cfgAWSKMSRegion).length = 3
      ∧ (cfgAWS23.GetStringSlice .cfgAWSKMSKeyID).length = 3
      ∧ ∃ err, (kvStoreForConfig globalsA worldOK cfgAWS23).out = .ret .nil (some err) :=
  ⟨by decide, by decide, by decide, by decide, by decide,
    kvStoreForConfig_aws_mismatch_fails globalsA worldOK cfgAWS23 (by decide) (by decide)⟩

/-- C3: for a mode string that is none of the ten recognised values,
`kvStoreForConfig` returns a nil Service and the error
`unsupported backend mode: '<mode>'`, and calls no adapter constructor. -/
theorem kvStoreForConfig_unsupported_mode (g : Globals) (w : World) (cfg : Viper)
    (hmode : cfg.GetString .cfgMode ∉ recognisedModes) :
    (kvStoreForConfig g w cfg).out
        = .ret .nil (some ⟨"unsupported backend mode: '" ++ cfg.GetString .cfgMode ++ "'"⟩)
      ∧ (kvStoreForConfig g w cfg).trace = [] := by
  rw [kvStoreForConfig_default g w cfg hmode]
  exact ⟨rfl, rfl⟩

/-- Witness of C3: the mode `s3` is not recognised. -/
theorem kvStoreForConfig_unsupported_mode_witness :
    (kvStoreForConfig globalsA worldOK (cfgOnlyMode "s3")).out
        = .ret .nil (some ⟨"unsupported backend mode: 's3'"⟩)
      ∧ (kvStoreForConfig globalsA worldOK (cfgOnlyMode "s3")).trace = [] :=
  kvStoreForConfig_unsupported_mode globalsA worldOK (cfgOnlyMode "s3") (by decide)

/-- C4: in every mode and for every behaviour of the constructors, if a
constructor call made by `kvStoreForConfig` returns an error, then no
constructor is called after it and `kvStoreForConfig` returns a nil Service
together with an error. -/
theorem kvStoreForConfig_constructor_error (g : Globals) (w : World) (cfg : Viper)
    (pre post : List Event) (ev : Event)
    (htrace : (kvStoreForConfig g w cfg).trace = pre ++ ev :: post)
    (herr : ev.err ≠ none) :
    post = [] ∧ ∃ err, (kvStoreForConfig g w cfg).out = .ret .nil (some err) := by
  rcases failFast_kvStoreForConfig g w cfg with hclean | ⟨pre2, ev2, err2, e, htr, hpre, -, hout⟩
  · exact absurd (hclean ev (by rw [htrace]; simp)) herr
  · exact ⟨failing_event_is_last pre2 pre post ev2 ev (htr ▸ htrace) hpre herr, e, hout⟩

/-- Witness of C4: in mode `alibaba-kms-oss` the first constructor succeeds and
the second one fails. -/
theorem kvStoreForConfig_constructor_error_witness :
    (kvStoreForConfig globalsA worldSecondFails cfgAlibaba).trace
        = [⟨.alibabaossNew "oss-eu-central-1.aliyuncs.com" "LTAI-id" "s3cr3t" "unseal-keys" "",
            .obj 0, none⟩]
          ++ ⟨.alibabakmsNew "eu-central-1" "LTAI-id" "s3cr3t" "key-1" (.obj 0), .nil,
            some ⟨"access denied"⟩⟩ :: []
      ∧ (([] : List Event) = [] ∧
        ∃ err, (kvStoreForConfig globalsA worldSecondFails cfgAlibaba).out
          = .ret .nil (some err)) :=
  ⟨by decide,
    kvStoreForConfig_constructor_error globalsA worldSecondFails cfgAlibaba
      [⟨.alibabaossNew "oss-eu-central-1.aliyuncs.com" "LTAI-id" "s3cr3t" "unseal-keys" "",
        .obj 0, none⟩]
      []
      ⟨.alibabakmsNew "eu-central-1" "LTAI-id" "s3cr3t" "key-1" (.obj 0), .nil,
        some ⟨"access denied"⟩⟩
      (by decide) (by decide)⟩

/-- C7, as the code behaves: mode `aws-kms-s3` with all four lists empty calls
no constructor and returns, with a nil error, the Service that `multi.New`
builds from an empty member list. -/
theorem kvStoreForConfig_aws_empty (g : Globals) (w : World) (cfg : Viper)
    (hmode : cfg.GetString .cfgMode = cfgModeValueAWSKMS3)
    (h1 : cfg.GetStringSlice .cfgAWSS3Region = [])
    (h2 : cfg.GetStringSlice .cfgAWSS3Bucket = [])
    (h3 : cfg.GetStringSlice .cfgAWSKMSRegion = [])
    (h4 : cfg.GetStringSlice .cfgAWSKMSKeyID = []) :
    kvStoreForConfig g w cfg = ⟨.ret (w.multiNew []) none, []⟩ := by
  rw [kvStoreForConfig_aws g w cfg hmode]
  simp [kvStoreAWSKMS3, h1, h2, h3, h4, s3Loop, kmsLoop]

/-- Witness of C7 as the code behaves, with constructors that would all fail. -/
theorem kvStoreForConfig_aws_empty_witness :
    kvStoreForConfig globalsA worldFail cfgAWSEmpty = ⟨.ret (worldFail.multiNew []) none, []⟩ :=
  kvStoreForConfig_aws_empty globalsA worldFail cfgAWSEmpty (by decide) rfl rfl rfl rfl

/-- Counterexample to C7: with no storage location and no key-management
location declared, construction does not fail: it returns a Service (object
100, the aggregate of no member) and a nil error. -/
theorem kvStoreForConfig_aws_empty_succeeds :
    cfgAWSEmpty.GetString .cfgMode = cfgModeValueAWSKMS3
      ∧ cfgAWSEmpty.GetStringSlice .cfgAWSS3Region = []
      ∧ cfgAWSEmpty.GetStringSlice .cfgAWSS3Bucket = []
      ∧ cfgAWSEmpty.GetStringSlice .cfgAWSKMSRegion = []
      ∧ cfgAWSEmpty.GetStringSlice .cfgAWSKMSKeyID = []
      ∧ kvStoreForConfig globalsA worldOK cfgAWSEmpty = ⟨.ret (.obj 100) none, []⟩ := by
  decide

/-! ## Calls of the loops, by index -/

theorem calls_at_index (f : Nat → Option Call) (n : Nat) (evs : List Event)
    (h : List.Forall₂ (fun i ev => f i = some ev.call) ((List.range n).take evs.length) evs)
    (i : Nat) (ev : Event) (hev : evs[i]? = some ev) : i < n ∧ f i = some ev.call := by
  obtain ⟨hlen, hget⟩ := List.forall₂_iff_get.1 h
  obtain ⟨hi, hevi⟩ := List.getElem?_eq_some.1 hev
  have hi1 : i < ((List.range n).take evs.length).length := by rw [hlen]; exact hi
  have hin : i < n := by
    simp only [List.length_take, List.length_range] at hi1
    omega
  refine ⟨hin, ?_⟩
  have h3 := hget i hi1 hi
  simp only [List.get_eq_getElem, List.getElem_take, List.getElem_range] at h3
  rw [← hevi]
  exact h3

theorem s3Calls_index (cfg : Viper) (evs : List Event) (h : S3Calls cfg evs)
    (i : Nat) (ev : Event) (hev : evs[i]? = some ev) :
    ∃ region bucket, (cfg.GetStringSlice .cfgAWSS3Region)[i]? = some region
      ∧ (cfg.GetStringSlice .cfgAWSS3Bucket)[i]? = some bucket
      ∧ ev.call = .s3New region bucket (cfg.GetString .cfgAWSS3Prefix) := by
  have h2 := (calls_at_index _ _ evs h i ev hev).2
  unfold s3CallAt at h2
  cases h3 : (cfg.GetStringSlice .cfgAWSS3Region)[i]? with
  | none => simp [h3] at h2
  | some region =>
    cases h4 : (cfg.GetStringSlice .cfgAWSS3Bucket)[i]? with
    | none => simp [h3, h4] at h2
    | some bucket =>
      simp only [h3, h4, Option.some.injEq] at h2
      exact ⟨region, bucket, rfl, rfl, h2.symm⟩

theorem kmsCalls_index (cfg : Viper) (s3Services : List Service) (evs : List Event)
    (h : KMSCalls cfg s3Services evs) (i : Nat) (ev : Event) (hev : evs[i]? = some ev) :
    ∃ store region keyID, s3Services[i]? = some store
      ∧ (cfg.GetStringSlice .cfgAWSKMSRegion)[i]? = some region
      ∧ (cfg.GetStringSlice .cfgAWSKMSKeyID)[i]? = some keyID
      ∧ ev.call = .awskmsNew store region keyID := by
  have h2 := (calls_at_index _ _ evs h i ev hev).2
  unfold kmsCallAt at h2
  cases h3 : s3Services[i]? with
  | none => simp [h3] at h2
  | some store =>
    cases h4 : (cfg.GetStringSlice .cfgAWSKMSRegion)[i]? with
    | none => simp [h3, h4] at h2
    | some region =>
      cases h5 : (cfg.GetStringSlice .cfgAWSKMSKeyID)[i]? with
      | none => simp [h3, h4, h5] at h2
      | some keyID =>
        simp only [h3, h4, h5, Option.some.injEq] at h2
        exact ⟨store, region, keyID, rfl, rfl, rfl, h2.symm⟩

theorem wrap_s3_text (err : Error) :
    errors.Wrap err "error creating AWS S3 kv store"
      = ⟨"error creating AWS S3 kv store: " ++ err.message⟩ := by
  unfold errors.Wrap
  have h : "error creating AWS S3 kv store" ++ ": " = "error creating AWS S3 kv store: " := by
    decide
  rw [h]

/-- C2, as the code behaves: in mode `aws-kms-s3` with parallel lists that
disagree in length, every constructor call made is the `s3.New` call of an S3
location, in configuration order, so `awskms.New` is never called. When the S3
region and bucket lists disagree, no constructor is called and the error
`specify the same number of regions and buckets for AWS S3 kv store [a != b]`
is returned with a nil Service. When they agree and no `s3.New` call fails,
`s3.New` has been called for every S3 location and the run then returns a nil
Service with the error of the KMS regions / key IDs check or, if that check
passes, of the S3 buckets / KMS keys check. When an `s3.New` call fails, it is
the last call made and the run returns a nil Service with that error wrapped
as `error creating AWS S3 kv store: ...`, which is not a configuration error. -/
theorem kvStoreForConfig_aws_mismatch_calls (g : Globals) (w : World) (cfg : Viper)
    (hmode : cfg.GetString .cfgMode = cfgModeValueAWSKMS3)
    (hne : ¬ ((cfg.GetStringSlice .cfgAWSS3Region).length = (cfg.GetStringSlice .cfgAWSS3Bucket).length
      ∧ (cfg.GetStringSlice .cfgAWSS3Bucket).length = (cfg.GetStringSlice .cfgAWSKMSRegion).length
      ∧ (cfg.GetStringSlice .cfgAWSKMSRegion).length = (cfg.GetStringSlice .cfgAWSKMSKeyID).length)) :
    (∀ (i : Nat) (ev : Event), (kvStoreForConfig g w cfg).trace[i]? = some ev →
        ∃ region bucket, (cfg.GetStringSlice .cfgAWSS3Region)[i]? = some region
          ∧ (cfg.GetStringSlice .cfgAWSS3Bucket)[i]? = some bucket
          ∧ ev.call = .s3New region bucket (cfg.GetString .cfgAWSS3Prefix))
      ∧ ((cfg.GetStringSlice .cfgAWSS3Region).length ≠ (cfg.GetStringSlice .cfgAWSS3Bucket).length →
          kvStoreForConfig g w cfg
            = ⟨.ret .nil (some ⟨"specify the same number of regions and buckets for AWS S3 kv store ["
                ++ toString (cfg.GetStringSlice .cfgAWSS3Region).length ++ " != "
                ++ toString (cfg.GetStringSlice .cfgAWSS3Bucket).length ++ "]"⟩), []⟩)
      ∧ ((cfg.GetStringSlice .cfgAWSS3Region).length = (cfg.GetStringSlice .cfgAWSS3Bucket).length →
          (∀ ev ∈ (kvStoreForConfig g w cfg).trace, ev.err = none) →
          (kvStoreForConfig g w cfg).trace.length = (cfg.GetStringSlice .cfgAWSS3Region).length
            ∧ (((cfg.GetStringSlice .cfgAWSKMSRegion).length
                  ≠ (cfg.GetStringSlice .cfgAWSKMSKeyID).length
                ∧ (kvStoreForConfig g w cfg).out = .ret .nil (some
                  ⟨"specify the same number of regions and key IDs for AWS KMS kv store"⟩))
              ∨ ((cfg.GetStringSlice .cfgAWSKMSRegion).length
                  = (cfg.GetStringSlice .cfgAWSKMSKeyID).length
                ∧ (cfg.GetStringSlice .cfgAWSKMSRegion).length
                  ≠ (cfg.GetStringSlice .cfgAWSS3Region).length
                ∧ (kvStoreForConfig g w cfg).out = .ret .nil (some
                  ⟨"specify the same number of S3 buckets and KMS keys for AWS kv store"⟩))))
      ∧ (∀ (ev : Event) (err : Error), ev ∈ (kvStoreForConfig g w cfg).trace → ev.err = some err →
          (∃ pre, (kvStoreForConfig g w cfg).trace = pre ++ [ev] ∧ ∀ x ∈ pre, x.err = none)
            ∧ (kvStoreForConfig g w cfg).out
              = .ret .nil (some ⟨"error creating AWS S3 kv store: " ++ err.message⟩)) := by
  rw [kvStoreForConfig_aws g w cfg hmode]
  have h := kvStoreAWSKMS3_run w cfg
  revert h
  generalize kvStoreAWSKMS3 w cfg = r
  intro h
  have hnone : ∀ (evs : List Event) (ev : Event) (err : Error), Clean evs → ev ∈ evs →
      ev.err = some err → False := by
    intro evs ev err hc hmem he
    have := hc ev hmem
    rw [he] at this
    cases this
  cases h with
  | s3Mismatch h =>
    exact ⟨fun i ev hev => by simp at hev, fun _ => rfl, fun h2 => absurd h2 h,
      fun ev err hev => by cases hev⟩
  | s3Failed pre ev err h hcalls hpre herr =>
    refine ⟨fun i e he => s3Calls_index cfg _ hcalls i e he, fun h2 => absurd h h2,
      fun _ hc => ?_, ?_⟩
    · have := hc ev (by simp)
      rw [herr] at this
      cases this
    · intro ev2 err2 hmem he2
      rcases List.mem_append.1 hmem with hm | hm
      · exact (hnone pre ev2 err2 hpre hm he2).elim
      · have hev : ev2 = ev := List.mem_singleton.1 hm
        subst hev
        have herr2 : err2 = err := Option.some.inj (he2.symm.trans herr)
        subst herr2
        exact ⟨⟨pre, rfl, hpre⟩, congrArg (fun e => Outcome.ret Service.nil (some e))
          (wrap_s3_text err2)⟩
  | kmsMismatch s3evs h hcalls hlen hclean h2 =>
    exact ⟨fun i e he => s3Calls_index cfg _ hcalls i e he, fun h2 => absurd h h2,
      fun _ _ => ⟨hlen, Or.inl ⟨h2, rfl⟩⟩,
      fun ev err hmem he => (hnone s3evs ev err hclean hmem he).elim⟩
  | s3kmsMismatch s3evs h hcalls hlen hclean h2 h3 =>
    exact ⟨fun i e he => s3Calls_index cfg _ hcalls i e he, fun h2 => absurd h h2,
      fun _ _ => ⟨hlen, Or.inr ⟨h2, h3, rfl⟩⟩,
      fun ev err hmem he => (hnone s3evs ev err hclean hmem he).elim⟩
  | kmsFailed s3evs pre ev err h hcalls hlen hclean h2 h3 hkcalls hpre herr =>
    exact absurd ⟨h, by omega, h2⟩ hne
  | built s3evs kmsevs h hcalls hlen hclean h2 h3 hkcalls hklen hkclean =>
    exact absurd ⟨h, by omega, h2⟩ hne

/-- Witness of C2 as the code behaves: two storage and three key-management
locations, once with constructors that succeed (both `s3.New` calls are made,
then the S3 buckets / KMS keys error is returned) and once with constructors
that fail (the first `s3.New` call is the last one and its error is returned,
wrapped). -/
theorem kvStoreForConfig_aws_mismatch_calls_witness :
    cfgAWS23.GetString .cfgMode = cfgModeValueAWSKMS3
      ∧ ((kvStoreForConfig globalsA worldOK cfgAWS23).trace.length
            = (cfgAWS23.GetStringSlice .cfgAWSS3Region).length
          ∧ (((cfgAWS23.GetStringSlice .cfgAWSKMSRegion).length
                ≠ (cfgAWS23.GetStringSlice .cfgAWSKMSKeyID).length
              ∧ (kvStoreForConfig globalsA worldOK cfgAWS23).out = .ret .nil (some
                ⟨"specify the same number of regions and key IDs for AWS KMS kv store"⟩))
            ∨ ((cfgAWS23.GetStringSlice .cfgAWSKMSRegion).length
                = (cfgAWS23.GetStringSlice .cfgAWSKMSKeyID).length
              ∧ (cfgAWS23.GetStringSlice .cfgAWSKMSRegion).length
                ≠ (cfgAWS23.GetStringSlice .cfgAWSS3Region).length
              ∧ (kvStoreForConfig globalsA worldOK cfgAWS23).out = .ret .nil (some
                ⟨"specify the same number of S3 buckets and KMS keys for AWS kv store"⟩))))
      ∧ ((∃ pre, (kvStoreForConfig globalsA worldFail cfgAWS23).trace
              = pre ++ [⟨.s3New "eu-west-1" "bucket-eu" "keys/", .nil, some ⟨"connection refused"⟩⟩]
            ∧ ∀ x ∈ pre, x.err = none)
          ∧ (kvStoreForConfig globalsA worldFail cfgAWS23).out
            = .ret .nil (some ⟨"error creating AWS S3 kv store: " ++ "connection refused"⟩)) :=
  ⟨by decide,
    (kvStoreForConfig_aws_mismatch_calls globalsA worldOK cfgAWS23 (by decide) (by decide)).2.2.1
      (by decide) (by decide),
    (kvStoreForConfig_aws_mismatch_calls globalsA worldFail cfgAWS23 (by decide) (by decide)).2.2.2
      ⟨.s3New "eu-west-1" "bucket-eu" "keys/", .nil, some ⟨"connection refused"⟩⟩
      ⟨"connection refused"⟩ (by decide) rfl⟩

/-- Counterexample to C2: with 2 S3 regions, 2 S3 buckets, 3 KMS regions and 3
KMS key IDs, and constructors that succeed, `s3.New` is called twice before
the configuration error is returned. -/
theorem kvStoreForConfig_aws_mismatch_after_s3 :
    cfgAWS23.GetString .cfgMode = cfgModeValueAWSKMS3
      ∧ (cfgAWS23.GetStringSlice .cfgAWSS3Region).length = 2
      ∧ (cfgAWS23.GetStringSlice .cfgAWSS3Bucket).length = 2
      ∧ (cfgAWS23.GetStringSlice .cfgAWSKMSRegion).length = 3
      ∧ (cfgAWS23.GetStringSlice .cfgAWSKMSKeyID).length = 3
      ∧ kvStoreForConfig globalsA worldOK cfgAWS23
        = ⟨.ret .nil (some ⟨"specify the same number of S3 buckets and KMS keys for AWS kv store"⟩),
           [⟨.s3New "eu-west-1" "bucket-eu" "keys/", .obj 0, none⟩,
            ⟨.s3New "us-east-1" "bucket-us" "keys/", .obj 1, none⟩]⟩ := by
  decide

/-! ## Every recorded result is the constructor's answer -/

theorem valid_one (w : World) (c : Call) : Valid w [w.invoke [] c] :=
  valid_snoc w [] c (valid_nil w)

theorem valid_two (w : World) (c1 c2 : Call) :
    Valid w [w.invoke [] c1, w.invoke [w.invoke [] c1] c2] :=
  valid_snoc w [w.invoke [] c1] c2 (valid_one w c1)

theorem kvStoreAWSKMS3_valid (w : World) (cfg : Viper) : Valid w (kvStoreAWSKMS3 w cfg).trace := by
  unfold kvStoreAWSKMS3
  simp only []
  split
  · exact valid_nil w
  · rw [s3Loop_eq_ctorLoop]
    have hv := ctorLoop_valid w (s3CallAt (cfg.GetStringSlice .cfgAWSS3Region)
      (cfg.GetStringSlice .cfgAWSS3Bucket) (cfg.GetString .cfgAWSS3Prefix))
      "error creating AWS S3 kv store" (List.range (cfg.GetStringSlice .cfgAWSS3Region).length)
      [] [] (valid_nil w)
    revert hv
    generalize ctorLoop w _ _ _ [] [] = res
    obtain ⟨r, tr⟩ := res
    intro hv
    cases r with
    | panicked => exact hv
    | failed e => exact hv
    | done s3Services =>
      simp only []
      split
      · exact hv
      · split
        · exact hv
        · rw [kmsLoop_eq_ctorLoop]
          have hv2 := ctorLoop_valid w (kmsCallAt s3Services
            (cfg.GetStringSlice .cfgAWSKMSRegion) (cfg.GetStringSlice .cfgAWSKMSKeyID))
            "error creating AWS KMS kv store"
            (List.range (cfg.GetStringSlice .cfgAWSKMSRegion).length) [] tr hv
          revert hv2
          generalize ctorLoop w _ _ _ [] tr = res2
          obtain ⟨r2, tr2⟩ := res2
          intro hv2
          cases r2 <;> exact hv2

theorem event_eta (ev : Event) (c : Call) (hc : ev.call = c) (he : ev.err = none) :
    ev = ⟨c, ev.svc, none⟩ := by
  cases ev
  simp_all

/-- C6: in mode `aws-kms-s3` with four lists of equal length `n`, on a run in
which no constructor call returns an error, `kvStoreForConfig` returns
`multi.New` applied to a list of exactly `n` members with a nil error; it makes
`2 * n` constructor calls, each recorded with what the constructor returned;
for every `i < n` the call number `i` is `s3.New(s3Regions[i], s3Buckets[i],
prefix)`, the call number `n + i` is `awskms.New` applied to the Service that
this `s3.New` call returned and to `kmsRegions[i]`, `kmsKeyIDs[i]`, and the
Service it returns is the member number `i`. -/
theorem kvStoreForConfig_aws_pairs (g : Globals) (w : World) (cfg : Viper) (n : Nat)
    (hmode : cfg.GetString .cfgMode = cfgModeValueAWSKMS3)
    (h1 : (cfg.GetStringSlice .cfgAWSS3Region).length = n)
    (h2 : (cfg.GetStringSlice .cfgAWSS3Bucket).length = n)
    (h3 : (cfg.GetStringSlice .cfgAWSKMSRegion).length = n)
    (h4 : (cfg.GetStringSlice .cfgAWSKMSKeyID).length = n)
    (hok : ∀ ev ∈ (kvStoreForConfig g w cfg).trace, ev.err = none) :
    ∃ stores members : List Service,
      stores.length = n ∧ members.length = n
      ∧ (kvStoreForConfig g w cfg).out = .ret (w.multiNew members) none
      ∧ (kvStoreForConfig g w cfg).trace.length = n + n
      ∧ Valid w (kvStoreForConfig g w cfg).trace
      ∧ ∀ i, i < n → ∃ region bucket kmsRegion keyID store member,
          (cfg.GetStringSlice .cfgAWSS3Region)[i]? = some region
          ∧ (cfg.GetStringSlice .cfgAWSS3Bucket)[i]? = some bucket
          ∧ (cfg.GetStringSlice .cfgAWSKMSRegion)[i]? = some kmsRegion
          ∧ (cfg.GetStringSlice .cfgAWSKMSKeyID)[i]? = some keyID
          ∧ stores[i]? = some store ∧ members[i]? = some member
          ∧ (kvStoreForConfig g w cfg).trace[i]?
              = some ⟨.s3New region bucket (cfg.GetString .cfgAWSS3Prefix), store, none⟩
          ∧ (kvStoreForConfig g w cfg).trace[n + i]?
              = some ⟨.awskmsNew store kmsRegion keyID, member, none⟩ := by
  rw [kvStoreForConfig_aws g w cfg hmode] at hok ⊢
  have hvalid := kvStoreAWSKMS3_valid w cfg
  have h := kvStoreAWSKMS3_run w cfg
  revert h hok hvalid
  generalize kvStoreAWSKMS3 w cfg = r
  intro hok hvalid h
  cases h with
  | s3Mismatch h => exact absurd (h1.trans h2.symm) h
  | s3Failed pre ev err h hcalls hpre herr =>
    have := hok ev (by simp)
    rw [herr] at this
    cases this
  | kmsMismatch s3evs h hcalls hlen hclean h5 => exact absurd (h3.trans h4.symm) h5
  | s3kmsMismatch s3evs h hcalls hlen hclean h5 h6 => exact absurd (h3.trans h1.symm) h6
  | kmsFailed s3evs pre ev err h hcalls hlen hclean h5 h6 hkcalls hpre herr =>
    have := hok ev (by simp)
    rw [herr] at this
    cases this
  | built s3evs kmsevs h hcalls hlen hclean h5 h6 hkcalls hklen hkclean =>
    rw [h1] at hlen
    rw [h3] at hklen
    refine ⟨s3evs.map Event.svc, kmsevs.map Event.svc, by simp [hlen], by simp [hklen], rfl,
      by simp [hlen, hklen], hvalid, ?_⟩
    intro i hi
    have hs : s3evs[i]? = some s3evs[i] := List.getElem?_eq_getElem (by omega)
    have hk : kmsevs[i]? = some kmsevs[i] := List.getElem?_eq_getElem (by omega)
    obtain ⟨region, bucket, hr, hb, hcall⟩ := s3Calls_index cfg s3evs hcalls i _ hs
    obtain ⟨store, kmsRegion, keyID, hst, hkr, hkk, hkcall⟩ :=
      kmsCalls_index cfg _ kmsevs hkcalls i _ hk
    have hst2 : (s3evs.map Event.svc)[i]? = some s3evs[i].svc := by
      rw [List.getElem?_map, hs]; rfl
    have hstore : store = s3evs[i].svc := by
      rw [hst2] at hst
      exact (Option.some.inj hst).symm
    subst hstore
    refine ⟨region, bucket, kmsRegion, keyID, s3evs[i].svc, kmsevs[i].svc, hr, hb, hkr, hkk,
      hst2, ?_, ?_, ?_⟩
    · rw [List.getElem?_map, hk]; rfl
    · show (s3evs ++ kmsevs)[i]? = _
      rw [List.getElem?_append_left (by omega), hs]
      exact congrArg some (event_eta _ _ hcall (hclean _ (List.getElem_mem _)))
    · show (s3evs ++ kmsevs)[n + i]? = _
      have hidx : n + i - s3evs.length = i := by omega
      rw [List.getElem?_append_right (by omega), hidx, hk]
      exact congrArg some (event_eta _ _ hkcall (hkclean _ (List.getElem_mem _)))

/-- Witness of C6: two storage locations paired with two key-management
locations, all constructors succeeding. -/
theorem kvStoreForConfig_aws_pairs_witness :
    cfgAWS22.GetString .cfgMode = cfgModeValueAWSKMS3
      ∧ (∀ ev ∈ (kvStoreForConfig globalsA worldOK cfgAWS22).trace, ev.err = none)
      ∧ ∃ stores members : List Service,
        stores.length = 2 ∧ members.length = 2
        ∧ (kvStoreForConfig globalsA worldOK cfgAWS22).out = .ret (worldOK.multiNew members) none
        ∧ (kvStoreForConfig globalsA worldOK cfgAWS22).trace.length = 2 + 2
        ∧ Valid worldOK (kvStoreForConfig globalsA worldOK cfgAWS22).trace
        ∧ ∀ i, i < 2 → ∃ region bucket kmsRegion keyID store member,
            (cfgAWS22.GetStringSlice .cfgAWSS3Region)[i]? = some region
            ∧ (cfgAWS22.GetStringSlice .cfgAWSS3Bucket)[i]? = some bucket
            ∧ (cfgAWS22.GetStringSlice .cfgAWSKMSRegion)[i]? = some kmsRegion
            ∧ (cfgAWS22.GetStringSlice .cfgAWSKMSKeyID)[i]? = some keyID
            ∧ stores[i]? = some store ∧ members[i]? = some member
            ∧ (kvStoreForConfig globalsA worldOK cfgAWS22).trace[i]?
                = some ⟨.s3New region bucket (cfgAWS22.GetString .cfgAWSS3Prefix), store, none⟩
            ∧ (kvStoreForConfig globalsA worldOK cfgAWS22).trace[2 + i]?
                = some ⟨.awskmsNew store kmsRegion keyID, member, none⟩ :=
  ⟨by decide, by decide,
    kvStoreForConfig_aws_pairs globalsA worldOK cfgAWS22 2 (by decide) (by decide) (by decide)
      (by decide) (by decide) (by decide)⟩

/-! ## The messages of the `aws-kms-s3` case -/

theorem msgs_distinct (n m : Nat) :
    msgS3Mismatch n m ≠ msgKMSMismatch ∧ msgS3Mismatch n m ≠ msgS3KMSMismatch
      ∧ msgKMSMismatch ≠ msgS3KMSMismatch := by
  refine ⟨?_, ?_, by decide⟩
  · simp [msgS3Mismatch, msgKMSMismatch, String.ext_iff]
  · simp [msgS3Mismatch, msgS3KMSMismatch, String.ext_iff]

theorem wrap_ne_mismatch (err : Error) (msg : String) (n m : Nat)
    (h : msg.data.head? = some 'e') :
    errors.Wrap err msg ≠ errors.Errorf (msgS3Mismatch n m)
      ∧ errors.Wrap err msg ≠ errors.Errorf msgKMSMismatch
      ∧ errors.Wrap err msg ≠ errors.Errorf msgS3KMSMismatch := by
  have key : ∀ s : String, s.data.head? = some 's' → errors.Wrap err msg ≠ errors.Errorf s := by
    intro s hs heq
    have h2 := congrArg (fun e => e.message.data.head?) heq
    simp only [errors.Wrap, errors.Errorf, String.data_append] at h2
    cases hm : msg.data with
    | nil => simp [hm] at h
    | cons c cs =>
      rw [hm] at h h2
      simp at h
      simp [hs, h] at h2
  refine ⟨key _ ?_, key _ (by decide), key _ (by decide)⟩
  simp [msgS3Mismatch]

theorem ret_err_inj (s1 s2 : Service) (e1 e2 : Error)
    (h : Outcome.ret s1 (some e1) = Outcome.ret s2 (some e2)) : e1 = e2 := by
  injection h with _ h2
  exact Option.some.inj h2

theorem errorf_inj (a b : String) (h : errors.Errorf a = errors.Errorf b) : a = b := by
  unfold errors.Errorf at h
  injection h

/-- The order of the three length checks and the message each one returns,
with the messages referred to by name. -/
theorem aws_messages_by_name (g : Globals) (w : World) (cfg : Viper)
    (hmode : cfg.GetString .cfgMode = cfgModeValueAWSKMS3) :
    ((cfg.GetStringSlice .cfgAWSS3Region).length ≠ (cfg.GetStringSlice .cfgAWSS3Bucket).length →
        (kvStoreForConfig g w cfg).out = .ret .nil (some (errors.Errorf (msgS3Mismatch
          (cfg.GetStringSlice .cfgAWSS3Region).length (cfg.GetStringSlice .cfgAWSS3Bucket).length))))
      ∧ ((cfg.GetStringSlice .cfgAWSS3Region).length = (cfg.GetStringSlice .cfgAWSS3Bucket).length →
          (∀ ev ∈ (kvStoreForConfig g w cfg).trace, ev.err = none) →
          (cfg.GetStringSlice .cfgAWSKMSRegion).length ≠ (cfg.GetStringSlice .cfgAWSKMSKeyID).length →
          (kvStoreForConfig g w cfg).out = .ret .nil (some (errors.Errorf msgKMSMismatch)))
      ∧ ((cfg.GetStringSlice .cfgAWSS3Region).length = (cfg.GetStringSlice .cfgAWSS3Bucket).length →
          (∀ ev ∈ (kvStoreForConfig g w cfg).trace, ev.err = none) →
          (cfg.GetStringSlice .cfgAWSKMSRegion).length = (cfg.GetStringSlice .cfgAWSKMSKeyID).length →
          (cfg.GetStringSlice .cfgAWSKMSRegion).length ≠ (cfg.GetStringSlice .cfgAWSS3Region).length →
          (kvStoreForConfig g w cfg).out = .ret .nil (some (errors.Errorf msgS3KMSMismatch)))
      ∧ (∀ n m, msgS3Mismatch n m ≠ msgKMSMismatch ∧ msgS3Mismatch n m ≠ msgS3KMSMismatch)
      ∧ msgKMSMismatch ≠ msgS3KMSMismatch
      ∧ (∀ n m, (kvStoreForConfig g w cfg).out
            = .ret .nil (some (errors.Errorf (msgS3Mismatch n m))) →
          (cfg.GetStringSlice .cfgAWSS3Region).length ≠ (cfg.GetStringSlice .cfgAWSS3Bucket).length)
      ∧ ((kvStoreForConfig g w cfg).out = .ret .nil (some (errors.Errorf msgKMSMismatch)) →
          (cfg.GetStringSlice .cfgAWSKMSRegion).length ≠ (cfg.GetStringSlice .cfgAWSKMSKeyID).length)
      ∧ ((kvStoreForConfig g w cfg).out = .ret .nil (some (errors.Errorf msgS3KMSMismatch)) →
          (cfg.GetStringSlice .cfgAWSS3Bucket).length ≠ (cfg.GetStringSlice .cfgAWSKMSKeyID).length) := by
  rw [kvStoreForConfig_aws g w cfg hmode]
  have h := kvStoreAWSKMS3_run w cfg
  revert h
  generalize kvStoreAWSKMS3 w cfg = r
  intro h
  refine ⟨?_, ?_, ?_, fun n m => ⟨(msgs_distinct n m).1, (msgs_distinct n m).2.1⟩,
    (msgs_distinct 0 0).2.2, ?_, ?_, ?_⟩
  · intro hab
    cases h with
    | s3Mismatch h => rfl
    | s3Failed pre ev err h hcalls hpre herr => exact absurd h hab
    | kmsMismatch s3evs h hcalls hlen hclean h2 => exact absurd h hab
    | s3kmsMismatch s3evs h hcalls hlen hclean h2 h3 => exact absurd h hab
    | kmsFailed s3evs pre ev err h hcalls hlen hclean h2 h3 hkcalls hpre herr => exact absurd h hab
    | built s3evs kmsevs h hcalls hlen hclean h2 h3 hkcalls hklen hkclean => exact absurd h hab
  · intro hab hok hcd
    cases h with
    | s3Mismatch h => exact absurd hab h
    | s3Failed pre ev err h hcalls hpre herr =>
      have := hok ev (by simp)
      rw [herr] at this
      cases this
    | kmsMismatch s3evs h hcalls hlen hclean h2 => rfl
    | s3kmsMismatch s3evs h hcalls hlen hclean h2 h3 => exact absurd h2 hcd
    | kmsFailed s3evs pre ev err h hcalls hlen hclean h2 h3 hkcalls hpre herr => exact absurd h2 hcd
    | built s3evs kmsevs h hcalls hlen hclean h2 h3 hkcalls hklen hkclean => exact absurd h2 hcd
  · intro hab hok hcd hca
    cases h with
    | s3Mismatch h => exact absurd hab h
    | s3Failed pre ev err h hcalls hpre herr =>
      have := hok ev (by simp)
      rw [herr] at this
      cases this
    | kmsMismatch s3evs h hcalls hlen hclean h2 => exact absurd hcd h2
    | s3kmsMismatch s3evs h hcalls hlen hclean h2 h3 => rfl
    | kmsFailed s3evs pre ev err h hcalls hlen hclean h2 h3 hkcalls hpre herr => exact absurd h3 hca
    | built s3evs kmsevs h hcalls hlen hclean h2 h3 hkcalls hklen hkclean => exact absurd h3 hca
  · intro n m hout
    cases h with
    | s3Mismatch h => exact h
    | s3Failed pre ev err h hcalls hpre herr =>
      exact absurd (ret_err_inj _ _ _ _ hout) (wrap_ne_mismatch err _ n m (by decide)).1
    | kmsMismatch s3evs h hcalls hlen hclean h2 =>
      exact absurd (errorf_inj _ _ (ret_err_inj _ _ _ _ hout)).symm (msgs_distinct n m).1
    | s3kmsMismatch s3evs h hcalls hlen hclean h2 h3 =>
      exact absurd (errorf_inj _ _ (ret_err_inj _ _ _ _ hout)).symm (msgs_distinct n m).2.1
    | kmsFailed s3evs pre ev err h hcalls hlen hclean h2 h3 hkcalls hpre herr =>
      exact absurd (ret_err_inj _ _ _ _ hout) (wrap_ne_mismatch err _ n m (by decide)).1
    | built s3evs kmsevs h hcalls hlen hclean h2 h3 hkcalls hklen hkclean =>
      injection hout with _ h5
      cases h5
  · intro hout
    cases h with
    | s3Mismatch h =>
      exact absurd (errorf_inj _ _ (ret_err_inj _ _ _ _ hout)) (msgs_distinct _ _).1
    | s3Failed pre ev err h hcalls hpre herr =>
      exact absurd (ret_err_inj _ _ _ _ hout) (wrap_ne_mismatch err _ 0 0 (by decide)).2.1
    | kmsMismatch s3evs h hcalls hlen hclean h2 => exact h2
    | s3kmsMismatch s3evs h hcalls hlen hclean h2 h3 =>
      exact absurd (errorf_inj _ _ (ret_err_inj _ _ _ _ hout)).symm (msgs_distinct 0 0).2.2
    | kmsFailed s3evs pre ev err h hcalls hlen hclean h2 h3 hkcalls hpre herr =>
      exact absurd (ret_err_inj _ _ _ _ hout) (wrap_ne_mismatch err _ 0 0 (by decide)).2.1
    | built s3evs kmsevs h hcalls hlen hclean h2 h3 hkcalls hklen hkclean =>
      injection hout with _ h5
      cases h5
  · intro hout
    cases h with
    | s3Mismatch h =>
      exact absurd (errorf_inj _ _ (ret_err_inj _ _ _ _ hout)) (msgs_distinct _ _).2.1
    | s3Failed pre ev err h hcalls hpre herr =>
      exact absurd (ret_err_inj _ _ _ _ hout) (wrap_ne_mismatch err _ 0 0 (by decide)).2.2
    | kmsMismatch s3evs h hcalls hlen hclean h2 =>
      exact absurd (errorf_inj _ _ (ret_err_inj _ _ _ _ hout)) (msgs_distinct 0 0).2.2
    | s3kmsMismatch s3evs h hcalls hlen hclean h2 h3 => omega
    | kmsFailed s3evs pre ev err h hcalls hlen hclean h2 h3 hkcalls hpre herr =>
      exact absurd (ret_err_inj _ _ _ _ hout) (wrap_ne_mismatch err _ 0 0 (by decide)).2.2
    | built s3evs kmsevs h hcalls hlen hclean h2 h3 hkcalls hklen hkclean =>
      injection hout with _ h5
      cases h5

/-- C8: in mode `aws-kms-s3` the three length checks are applied in the order
(S3 regions, S3 buckets), (KMS regions, KMS key IDs), (KMS regions, S3
regions), and the error returned is the message of the first check that
fails, provided no `s3.New` call returned an error before: the first check
returns `specify the same number of regions and buckets for AWS S3 kv store
[a != b]` with the two lengths, the second `specify the same number of
regions and key IDs for AWS KMS kv store`, the third `specify the same number
of S3 buckets and KMS keys for AWS kv store`. The three texts are pairwise
distinct, whatever lengths are printed. Whenever one of them is returned, the
two lists its text names differ in length: S3 regions and S3 buckets for the
first, KMS regions and KMS key IDs for the second, S3 buckets and KMS key IDs
for the third. -/
theorem kvStoreForConfig_aws_mismatch_message (g : Globals) (w : World) (cfg : Viper)
    (hmode : cfg.GetString .cfgMode = cfgModeValueAWSKMS3) :
    ((cfg.GetStringSlice .cfgAWSS3Region).length ≠ (cfg.GetStringSlice .cfgAWSS3Bucket).length →
        (kvStoreForConfig g w cfg).out = .ret .nil (some
          ⟨"specify the same number of regions and buckets for AWS S3 kv store ["
            ++ toString (cfg.GetStringSlice .cfgAWSS3Region).length ++ " != "
            ++ toString (cfg.GetStringSlice .cfgAWSS3Bucket).length ++ "]"⟩))
      ∧ ((cfg.GetStringSlice .cfgAWSS3Region).length = (cfg.GetStringSlice .cfgAWSS3Bucket).length →
          (∀ ev ∈ (kvStoreForConfig g w cfg).trace, ev.err = none) →
          (cfg.GetStringSlice .cfgAWSKMSRegion).length ≠ (cfg.GetStringSlice .cfgAWSKMSKeyID).length →
          (kvStoreForConfig g w cfg).out = .ret .nil (some
            ⟨"specify the same number of regions and key IDs for AWS KMS kv store"⟩))
      ∧ ((cfg.GetStringSlice .cfgAWSS3Region).length = (cfg.GetStringSlice .cfgAWSS3Bucket).length →
          (∀ ev ∈ (kvStoreForConfig g w cfg).trace, ev.err = none) →
          (cfg.GetStringSlice .cfgAWSKMSRegion).length = (cfg.GetStringSlice .cfgAWSKMSKeyID).length →
          (cfg.GetStringSlice .cfgAWSKMSRegion).length ≠ (cfg.GetStringSlice .cfgAWSS3Region).length →
          (kvStoreForConfig g w cfg).out = .ret .nil (some
            ⟨"specify the same number of S3 buckets and KMS keys for AWS kv store"⟩))
      ∧ (∀ n m : Nat,
          "specify the same number of regions and buckets for AWS S3 kv store ["
              ++ toString n ++ " != " ++ toString m ++ "]"
            ≠ "specify the same number of regions and key IDs for AWS KMS kv store"
          ∧ "specify the same number of regions and buckets for AWS S3 kv store ["
              ++ toString n ++ " != " ++ toString m ++ "]"
            ≠ "specify the same number of S3 buckets and KMS keys for AWS kv store")
      ∧ "specify the same number of regions and key IDs for AWS KMS kv store"
          ≠ "specify the same number of S3 buckets and KMS keys for AWS kv store"
      ∧ (∀ n m : Nat, (kvStoreForConfig g w cfg).out = .ret .nil (some
            ⟨"specify the same number of regions and buckets for AWS S3 kv store ["
              ++ toString n ++ " != " ++ toString m ++ "]"⟩) →
          (cfg.GetStringSlice .cfgAWSS3Region).length ≠ (cfg.GetStringSlice .cfgAWSS3Bucket).length)
      ∧ ((kvStoreForConfig g w cfg).out = .ret .nil (some
            ⟨"specify the same number of regions and key IDs for AWS KMS kv store"⟩) →
          (cfg.GetStringSlice .cfgAWSKMSRegion).length ≠ (cfg.GetStringSlice .cfgAWSKMSKeyID).length)
      ∧ ((kvStoreForConfig g w cfg).out = .ret .nil (some
            ⟨"specify the same number of S3 buckets and KMS keys for AWS kv store"⟩) →
          (cfg.GetStringSlice .cfgAWSS3Bucket).length ≠ (cfg.GetStringSlice .cfgAWSKMSKeyID).length) :=
  aws_messages_by_name g w cfg hmode

/-- Witness of C8: with 2 S3 regions, 2 S3 buckets, 3 KMS regions and 3 KMS
key IDs the third check is the first to fail, its message is returned, and the
S3 bucket and KMS key ID lists it names differ in length. -/
theorem kvStoreForConfig_aws_mismatch_message_witness :
    cfgAWS23.GetString .cfgMode = cfgModeValueAWSKMS3
      ∧ (kvStoreForConfig globalsA worldOK cfgAWS23).out = .ret .nil (some
          ⟨"specify the same number of S3 buckets and KMS keys for AWS kv store"⟩)
      ∧ (cfgAWS23.GetStringSlice .cfgAWSS3Bucket).length
          ≠ (cfgAWS23.GetStringSlice .cfgAWSKMSKeyID).length :=
  ⟨by decide,
    (kvStoreForConfig_aws_mismatch_message globalsA worldOK cfgAWS23 (by decide)).2.2.1
      (by decide) (by decide) (by decide) (by decide),
    (kvStoreForConfig_aws_mismatch_message globalsA worldOK cfgAWS23 (by decide)).2.2.2.2.2.2.2
      (by decide)⟩

/-! ## Mode `alibaba-kms-oss` -/

/-- C5, as the code behaves: in mode `alibaba-kms-oss`, if the access key ID,
the access key secret or the OSS bucket is empty, `kvStoreForConfig` returns a
nil Service and an error without calling any constructor; when all three are
non-empty it calls `alibabaoss.New` with these credentials and this bucket and,
if that call returns no error, `alibabakms.New` with the same credentials and
the OSS Service; if `alibabaoss.New` returns an error, no other constructor is
called and a nil Service and an error are returned. -/
theorem kvStoreForConfig_alibaba_validation (g : Globals) (w : World) (cfg : Viper)
    (hmode : cfg.GetString .cfgMode = cfgModeValueAlibabaKMSOSS) :
    ((cfg.GetString .cfgAlibabaAccessKeyID = "" ∨ cfg.GetString .cfgAlibabaAccessKeySecret = ""
          ∨ cfg.GetString .cfgAlibabaOSSBucket = "") →
        (kvStoreForConfig g w cfg).trace = []
          ∧ ∃ err, (kvStoreForConfig g w cfg).out = .ret .nil (some err))
      ∧ (cfg.GetString .cfgAlibabaAccessKeyID ≠ "" → cfg.GetString .cfgAlibabaAccessKeySecret ≠ "" →
          cfg.GetString .cfgAlibabaOSSBucket ≠ "" →
          ∃ oss : Event,
            oss = w.invoke [] (.alibabaossNew (cfg.GetString .cfgAlibabaOSSEndpoint)
              (cfg.GetString .cfgAlibabaAccessKeyID) (cfg.GetString .cfgAlibabaAccessKeySecret)
              (cfg.GetString .cfgAlibabaOSSBucket) (cfg.GetString .cfgAlibabaOSSPrefix))
            ∧ (oss.err = none →
                (kvStoreForConfig g w cfg).trace
                  = [oss, w.invoke [oss] (.alibabakmsNew (cfg.GetString .cfgAlibabaKMSRegion)
                      (cfg.GetString .cfgAlibabaAccessKeyID)
                      (cfg.GetString .cfgAlibabaAccessKeySecret)
                      (cfg.GetString .cfgAlibabaKMSKeyID) oss.svc)])
            ∧ (oss.err ≠ none →
                (kvStoreForConfig g w cfg).trace = [oss]
                  ∧ ∃ err, (kvStoreForConfig g w cfg).out = .ret .nil (some err))) := by
  rw [kvStoreForConfig_alibaba g w cfg hmode]
  unfold kvStoreAlibabaKMSOSS
  simp only []
  constructor
  · intro hempty
    by_cases h1 : cfg.GetString .cfgAlibabaAccessKeyID = ""
        ∨ cfg.GetString .cfgAlibabaAccessKeySecret = ""
    · rw [if_pos h1]
      exact ⟨rfl, _, rfl⟩
    · rw [if_neg h1]
      have h2 : cfg.GetString .cfgAlibabaOSSBucket = "" := by
        rcases hempty with h | h | h
        · exact absurd (Or.inl h) h1
        · exact absurd (Or.inr h) h1
        · exact h
      rw [if_pos h2]
      exact ⟨rfl, _, rfl⟩
  · intro hid hsecret hbucket
    have h1 : ¬ (cfg.GetString .cfgAlibabaAccessKeyID = ""
        ∨ cfg.GetString .cfgAlibabaAccessKeySecret = "") := by
      rintro (h | h)
      · exact hid h
      · exact hsecret h
    rw [if_neg h1, if_neg hbucket]
    refine ⟨_, rfl, ?_, ?_⟩
    · intro hok
      simp only [hok]
      split <;> rfl
    · intro hfail
      cases herr : (w.invoke [] (.alibabaossNew (cfg.GetString .cfgAlibabaOSSEndpoint)
          (cfg.GetString .cfgAlibabaAccessKeyID) (cfg.GetString .cfgAlibabaAccessKeySecret)
          (cfg.GetString .cfgAlibabaOSSBucket) (cfg.GetString .cfgAlibabaOSSPrefix))).err with
      | none => exact absurd herr hfail
      | some err => exact ⟨rfl, _, rfl⟩

/-- Witness of C5 as the code behaves: without a bucket no constructor is called. -/
theorem kvStoreForConfig_alibaba_validation_witness :
    cfgAlibabaNoBucket.GetString .cfgMode = cfgModeValueAlibabaKMSOSS
      ∧ cfgAlibabaNoBucket.GetString .cfgAlibabaOSSBucket = ""
      ∧ (kvStoreForConfig globalsA worldOK cfgAlibabaNoBucket).trace = []
      ∧ ∃ err, (kvStoreForConfig globalsA worldOK cfgAlibabaNoBucket).out = .ret .nil (some err) :=
  ⟨by decide, by decide,
    (kvStoreForConfig_alibaba_validation globalsA worldOK cfgAlibabaNoBucket (by decide)).1
      (Or.inr (Or.inr (by decide)))⟩

/-- Counterexample to C5: the access key ID, the access key secret and the OSS
bucket are all non-empty, `alibabaoss.New` returns an error, and
`alibabakms.New` is not called: the only call made is the one to
`alibabaoss.New`. -/
theorem kvStoreForConfig_alibaba_oss_fails :
    cfgAlibaba.GetString .cfgMode = cfgModeValueAlibabaKMSOSS
      ∧ cfgAlibaba.GetString .cfgAlibabaAccessKeyID ≠ ""
      ∧ cfgAlibaba.GetString .cfgAlibabaAccessKeySecret ≠ ""
      ∧ cfgAlibaba.GetString .cfgAlibabaOSSBucket ≠ ""
      ∧ kvStoreForConfig globalsA worldFail cfgAlibaba
        = ⟨.ret .nil (some ⟨"error creating Alibaba OSS kv store: connection refused"⟩),
           [⟨.alibabaossNew "oss-eu-central-1.aliyuncs.com" "LTAI-id" "s3cr3t" "unseal-keys" "",
             .nil, some ⟨"connection refused"⟩⟩]⟩ := by
  decide

/-! ## Which constructors a mode calls -/

theorem calls_one (P : Call → Prop) (c : Call) (w : World) (msg : String) (hc : P c) :
    ∀ ev ∈ (match (w.invoke [] c).err with
      | some err => (⟨.ret .nil (some (errors.Wrap err msg)), [w.invoke [] c]⟩ : Run)
      | none => ⟨.ret (w.invoke [] c).svc none, [w.invoke [] c]⟩).trace, P ev.call := by
  intro ev hev
  cases h : (w.invoke [] c).err <;> simp only [h, List.mem_singleton] at hev <;>
    (subst hev; exact hc)

theorem calls_two (P : Call → Prop) (c1 : Call) (c2 : Service → Call) (w : World)
    (msg1 msg2 : String) (hc1 : P c1) (hc2 : ∀ s, P (c2 s)) :
    ∀ ev ∈ (match (w.invoke [] c1).err with
      | some err => (⟨.ret .nil (some (errors.Wrap err msg1)), [w.invoke [] c1]⟩ : Run)
      | none =>
        match (w.invoke [w.invoke [] c1] (c2 (w.invoke [] c1).svc)).err with
        | some err => ⟨.ret .nil (some (errors.Wrap err msg2)),
            [w.invoke [] c1, w.invoke [w.invoke [] c1] (c2 (w.invoke [] c1).svc)]⟩
        | none => ⟨.ret (w.invoke [w.invoke [] c1] (c2 (w.invoke [] c1).svc)).svc none,
            [w.invoke [] c1, w.invoke [w.invoke [] c1] (c2 (w.invoke [] c1).svc)]⟩).trace,
      P ev.call := by
  intro ev hev
  cases h : (w.invoke [] c1).err with
  | some err =>
    simp only [h, List.mem_singleton] at hev
    subst hev
    exact hc1
  | none =>
    cases h2 : (w.invoke [w.invoke [] c1] (c2 (w.invoke [] c1).svc)).err <;>
      simp only [h, h2, List.mem_cons, List.mem_singleton, List.not_mem_nil, or_false] at hev <;>
      (rcases hev with rfl | rfl
       · exact hc1
       · exact hc2 _)

theorem calls_aws (w : World) (cfg : Viper) :
    ∀ ev ∈ (kvStoreAWSKMS3 w cfg).trace, NotHSM ev.call := by
  have h := kvStoreAWSKMS3_run w cfg
  revert h
  generalize kvStoreAWSKMS3 w cfg = r
  intro h ev hev
  have hs3 : ∀ evs, S3Calls cfg evs → ev ∈ evs → NotHSM ev.call := by
    intro evs hc hmem
    obtain ⟨i, hi⟩ := List.mem_iff_getElem?.1 hmem
    obtain ⟨region, bucket, -, -, hcall⟩ := s3Calls_index cfg evs hc i ev hi
    intro config store
    rw [hcall]
    exact Call.noConfusion
  have hkms : ∀ stores evs, KMSCalls cfg stores evs → ev ∈ evs → NotHSM ev.call := by
    intro stores evs hc hmem
    obtain ⟨i, hi⟩ := List.mem_iff_getElem?.1 hmem
    obtain ⟨store, region, keyID, -, -, -, hcall⟩ := kmsCalls_index cfg stores evs hc i ev hi
    intro config store
    rw [hcall]
    exact Call.noConfusion
  cases h with
  | s3Mismatch h => cases hev
  | s3Failed pre ev2 err h hcalls hpre herr => exact hs3 _ hcalls hev
  | kmsMismatch s3evs h hcalls hlen hclean h2 => exact hs3 _ hcalls hev
  | s3kmsMismatch s3evs h hcalls hlen hclean h2 h3 => exact hs3 _ hcalls hev
  | kmsFailed s3evs pre ev2 err h hcalls hlen hclean h2 h3 hkcalls hpre herr =>
    rcases List.mem_append.1 hev with hm | hm
    · exact hs3 _ hcalls hm
    · exact hkms _ _ hkcalls hm
  | built s3evs kmsevs h hcalls hlen hclean h2 h3 hkcalls hklen hkclean =>
    rcases List.mem_append.1 hev with hm | hm
    · exact hs3 _ hcalls hm
    · exact hkms _ _ hkcalls hm

theorem calls_alibaba (w : World) (cfg : Viper) :
    ∀ ev ∈ (kvStoreAlibabaKMSOSS w cfg).trace, NotHSM ev.call := by
  unfold kvStoreAlibabaKMSOSS
  simp only []
  split
  · intro ev hev; cases hev
  · split
    · intro ev hev; cases hev
    · exact calls_two NotHSM _ (fun s => .alibabakmsNew _ _ _ _ s) w _ _
        (fun _ _ => Call.noConfusion) (fun _ _ _ => Call.noConfusion)

/-- C9, as the code behaves: the `hsm.Config` passed is the same function of the
configuration in both HSM modes; mode `hsm` makes the single call `hsm.New`
with that config and a nil inner store (so `k8s.New` is not called); mode
`hsm-k8s` calls `k8s.New(namespace, secret, labels)` first and, if that returns
no error, `hsm.New` with that config and exactly the Service `k8s.New`
returned, while on an error of `k8s.New` it calls nothing else; no other mode
calls `hsm.New`. -/
theorem kvStoreForConfig_hsm_inner_store (g : Globals) (w : World) (cfg : Viper) :
    ∃ config : hsm.Config,
      config = ⟨cfg.GetString .cfgHSMModulePath, cfg.GetUint .cfgHSMSlotID,
        cfg.GetString .cfgHSMTokenLabel, cfg.GetString .cfgHSMPin,
        cfg.GetString .cfgHSMKeyLabel⟩
      ∧ (cfg.GetString .cfgMode = cfgModeValueHSM →
          (kvStoreForConfig g w cfg).trace = [w.invoke [] (.hsmNew config .nil)])
      ∧ (cfg.GetString .cfgMode = cfgModeValueHSMK8S →
          ∃ k8s : Event,
            k8s = w.invoke [] (.k8sNew (cfg.GetString .cfgK8SNamespace)
              (cfg.GetString .cfgK8SSecret) g.k8sSecretLabels)
            ∧ (k8s.err = none →
                (kvStoreForConfig g w cfg).trace = [k8s, w.invoke [k8s] (.hsmNew config k8s.svc)])
            ∧ (k8s.err ≠ none → (kvStoreForConfig g w cfg).trace = [k8s]))
      ∧ (cfg.GetString .cfgMode ≠ cfgModeValueHSM → cfg.GetString .cfgMode ≠ cfgModeValueHSMK8S →
          ∀ ev ∈ (kvStoreForConfig g w cfg).trace, ∀ config2 store, ev.call ≠ .hsmNew config2 store) := by
  refine ⟨_, rfl, ?_, ?_, ?_⟩
  · intro hmode
    rw [kvStoreForConfig_hsm g w cfg hmode]
    unfold kvStoreHSM
    simp only []
    split <;> rfl
  · intro hmode
    rw [kvStoreForConfig_hsmk8s g w cfg hmode]
    unfold kvStoreHSMK8S
    simp only []
    refine ⟨_, rfl, ?_, ?_⟩
    · intro hok
      simp only [hok]
      split <;> rfl
    · intro hfail
      cases herr : (w.invoke [] (.k8sNew (cfg.GetString .cfgK8SNamespace)
          (cfg.GetString .cfgK8SSecret) g.k8sSecretLabels)).err with
      | none => exact absurd herr hfail
      | some err => rfl
  · intro h1 h2
    have key : ∀ ev ∈ (kvStoreForConfig g w cfg).trace, NotHSM ev.call := by
      unfold kvStoreForConfig
      simp only []
      split
      · exact calls_two NotHSM _ (fun s => .gckmsNew s _ _ _ _) w _ _
          (fun _ _ => Call.noConfusion) (fun _ _ _ => Call.noConfusion)
      split
      · exact calls_aws w cfg
      split
      · exact calls_one NotHSM _ w _ (fun _ _ => Call.noConfusion)
      split
      · exact calls_alibaba w cfg
      split
      · exact calls_one NotHSM _ w _ (fun _ _ => Call.noConfusion)
      split
      · exact calls_one NotHSM _ w _ (fun _ _ => Call.noConfusion)
      split
      · exact calls_one NotHSM _ w _ (fun _ _ => Call.noConfusion)
      split
      · exact calls_one NotHSM _ w _ (fun _ _ => Call.noConfusion)
      · intro ev hev; cases hev
    exact fun ev hev config2 store => key ev hev config2 store

/-- Witness of C9 as the code behaves: mode `hsm-k8s` with constructors that succeed;
`hsm.New` receives the object 0 that `k8s.New` returned. -/
theorem kvStoreForConfig_hsm_inner_store_witness :
    (cfgHSM "hsm-k8s").GetString .cfgMode = cfgModeValueHSMK8S
      ∧ (kvStoreForConfig globalsB worldOK (cfgHSM "hsm-k8s")).trace
        = [⟨.k8sNew "default" "hsm" [("app", "vault")], .obj 0, none⟩,
           ⟨.hsmNew ⟨"/usr/local/lib/opensc-pkcs11.so", 0, "bank-vaults", "banzai", "vault-key"⟩
              (.obj 0), .obj 1, none⟩] := by
  obtain ⟨config, hconfig, -, hk8s, -⟩ :=
    kvStoreForConfig_hsm_inner_store globalsB worldOK (cfgHSM "hsm-k8s")
  obtain ⟨k8s, hk, hok, -⟩ := hk8s (by decide)
  subst hk hconfig
  exact ⟨by decide, (hok (by decide)).trans (by decide)⟩

/-- Counterexample to C9: in mode `hsm-k8s`, when `k8s.New` returns an error,
`hsm.New` is not called at all: the only call made is the one to `k8s.New`. -/
theorem kvStoreForConfig_hsmk8s_k8s_fails :
    (cfgHSM "hsm-k8s").GetString .cfgMode = cfgModeValueHSMK8S
      ∧ kvStoreForConfig globalsA worldFail (cfgHSM "hsm-k8s")
        = ⟨.ret .nil
            (some ⟨"error creating K8S Secret with with kv store: connection refused"⟩),
           [⟨.k8sNew "default" "hsm" [], .nil, some ⟨"connection refused"⟩⟩]⟩ := by
  decide

/-! ## The package-level globals -/

/-- C10, as the code behaves: `kvStoreForConfig` never reads `appConfig` and
reads `k8sSecretLabels` only in the modes `k8s` and `hsm-k8s`: two runs on the
same configuration and the same constructor behaviour give the same calls and
the same result when the globals agree on `k8sSecretLabels`, or when the mode
is neither `k8s` nor `hsm-k8s`; `vaultConfigForConfig` ignores its argument:
its result is determined by the global `appConfig`. -/
theorem globals_dependence (g1 g2 : Globals) (w : World) (cfg cfg2 : Viper) :
    (g1.k8sSecretLabels = g2.k8sSecretLabels →
        kvStoreForConfig g1 w cfg = kvStoreForConfig g2 w cfg)
      ∧ (cfg.GetString .cfgMode ≠ cfgModeValueK8S → cfg.GetString .cfgMode ≠ cfgModeValueHSMK8S →
          kvStoreForConfig g1 w cfg = kvStoreForConfig g2 w cfg)
      ∧ (g1.appConfig = g2.appConfig →
          vaultConfigForConfig g1 cfg = vaultConfigForConfig g2 cfg2) := by
  refine ⟨?_, ?_, ?_⟩
  · intro h
    simp only [kvStoreForConfig, kvStoreK8S, kvStoreHSMK8S, h]
  · intro h1 h2
    simp only [kvStoreForConfig, h1, h2, if_false]
  · intro h
    simp only [vaultConfigForConfig, h]

/-- Witness of C10 as the code behaves: `globalsA` and `globalsC` have the same labels
and different `appConfig`; `globalsA` and `globalsB` differ in both. -/
theorem globals_dependence_witness :
    kvStoreForConfig globalsA worldOK (cfgHSM "k8s") = kvStoreForConfig globalsC worldOK (cfgHSM "k8s")
      ∧ kvStoreForConfig globalsA worldOK cfgAWS22 = kvStoreForConfig globalsB worldOK cfgAWS22
      ∧ vaultConfigForConfig globalsB cfgAWS22 = vaultConfigForConfig globalsC cfgAlibaba :=
  ⟨(globals_dependence globalsA globalsC worldOK (cfgHSM "k8s") cfgAWS22).1 rfl,
    (globals_dependence globalsA globalsB worldOK cfgAWS22 cfgAWS22).2.1 (by decide) (by decide),
    (globals_dependence globalsB globalsC worldOK cfgAWS22 cfgAlibaba).2.2 rfl⟩

/-- Counterexample to C10: on the same configuration and the same constructor
behaviour, two values of the globals give different constructor calls in mode
`k8s` (the labels passed to `k8s.New`) and different results of
`vaultConfigForConfig`. -/
theorem globals_are_read :
    (kvStoreForConfig globalsA worldOK (cfgHSM "k8s")).trace
        = [⟨.k8sNew "default" "hsm" [], .obj 0, none⟩]
      ∧ (kvStoreForConfig globalsB worldOK (cfgHSM "k8s")).trace
        = [⟨.k8sNew "default" "hsm" [("app", "vault")], .obj 0, none⟩]
      ∧ vaultConfigForConfig globalsA cfgAWS22 = (⟨5, 3, "", false, false⟩, none)
      ∧ vaultConfigForConfig globalsB cfgAWS22 = (⟨1, 1, "", true, true⟩, none) := by
  decide

end BankVaults
